import Mathlib

/-!
# Parking slot booking server: store model and booking lifecycle

A shallow embedding of the request handlers of `src/server.js` that read or
write the slot store and the booking history, of the expiry cleanup timer, of
the `verifyToken` middleware and of the dashboard statistics.

Modelling conventions

* A store is the triple `users / slots / bookingHistory`.  The same shape is
  used for the in-memory fallback `memoryDB` and for the MongoDB collections;
  the flag `dbConnected` selects the branch a handler takes, as in the source.
* A `Date` is a `JsDate`: its millisecond time value, or Invalid Date when
  `new Date(value)` is given a value more than 8.64e15 ms from the epoch.  The
  in-memory branches store such a date as it is; Mongoose refuses to cast it,
  so the database writes throw and the route answers 500.  One handler
  invocation reads the clock once (`now`, a valid time value).
* JavaScript `null` / `undefined` are `none`.  Request numbers are integers
  (`slotNumber`, `slotId` natural numbers); other JSON shapes are outside the
  model, among them a `slotNumber` sent as a string, which the in-memory
  lookup `s.id === slotNumber` never matches.
* `Array.prototype.find` followed by in-place mutation of the found object,
  and Mongoose `findOne` + `save` / `updateOne`, are `List.find?` together
  with `updateFirst`.
* Other store failures (connection errors reaching the `catch` branches) are
  not modelled.
* A handler runs without interruption between two `await`s; concurrent
  requests interleave at those points only (`slotsBookStep`, `interleave`).
* Fields no modelled handler reads are left out of the records: a slot's
  `_id`, a booking's `stripePaymentId` and `createdAt`, a user's `name`,
  `password` and `phoneNumber`.
-/

namespace Parking

/-! ## Data model -/

/-- Booking status values, as listed in `bookingHistorySchema.status`
(`active, released, cancelled, expired`). -/
inductive Status where
  | active
  | released
  | cancelled
  | expired
deriving DecidableEq, Repr

/-- A JavaScript `Date`: its time value in milliseconds, or Invalid Date (the
time value is NaN). -/
inductive JsDate where
  | valid (ms : Int)
  | invalid
deriving DecidableEq, Repr

/-- The constructor `new Date(value)` for an integer `value`: the time value
is kept when it lies within 8.64e15 ms of the epoch, otherwise the date is
invalid. -/
def JsDate.ofValue (value : Int) : JsDate :=
  if value.natAbs ≤ 8640000000000000 then .valid value else .invalid

/-- The comparison `a < b` of two dates: the comparison of their time values,
false as soon as one of them is NaN. -/
def JsDate.before : JsDate → JsDate → Bool
  | .valid a, .valid b => decide (a < b)
  | _, _ => false

instance JsDate.instLT : LT JsDate := ⟨fun a b => JsDate.before a b = true⟩

instance JsDate.instDecidableLT (a b : JsDate) : Decidable (a < b) :=
  inferInstanceAs (Decidable (JsDate.before a b = true))

/-- A clock reading, or any in-range time value, as a date. -/
instance JsDate.instCoe : Coe Int JsDate := ⟨JsDate.valid⟩

/-- Numerals denote the dates with that time value. -/
instance JsDate.instOfNat (n : Nat) : OfNat JsDate n := ⟨JsDate.valid n⟩

/-- A user record.  `registrationNumber` is the field of `userSchema`,
`vehicleRegistration` the field the in-memory branches read. -/
structure User where
  _id : String
  email : String
  registrationNumber : Option String
  vehicleRegistration : Option String
deriving DecidableEq, Repr

/-- A parking slot (`slotSchema`, and the elements of `memoryDB.slots`). -/
structure Slot where
  id : Nat
  booked : Bool
  endTime : Option JsDate
  registrationNumber : Option String
  userId : Option String
deriving DecidableEq, Repr

/-- A booking history record (`bookingHistorySchema`, and the objects pushed
onto `memoryDB.bookingHistory`), with the refund fields written by
`/api/admin/approve-refund`. -/
structure Booking where
  _id : String
  userId : Option String
  slot : Nat
  registrationNumber : String
  hours : Int
  amount : Int
  paymentStatus : String
  bookedTime : Int
  endTime : JsDate
  status : Status
  refundStatus : Option String
  refundAmount : Option Int
  refundApprovedAt : Option Int
deriving DecidableEq, Repr

/-- The store: `memoryDB`, or the three MongoDB collections. -/
structure Store where
  users : List User
  slots : List Slot
  bookingHistory : List Booking
deriving DecidableEq, Repr

/-- The response of a handler: `res.json` with a success body, or
`res.status(code).json` with an error body. -/
inductive Response where
  | success (message : String) (bookingId : Option String)
  | failure (code : Nat) (error : String)
deriving DecidableEq, Repr

/-- Whether a response is a declined request (an error body). -/
def Response.isFailure : Response → Bool
  | .success _ _ => false
  | .failure _ _ => true

/-! ## JavaScript helpers -/

/-- Truthiness of a nullable string (`if (slot.userId)`, `x || "N/A"`). -/
def truthy : Option String → Bool
  | some s => s != ""
  | none => false

/-- The value of `x || dflt` for a nullable string `x`. -/
def orElse (x : Option String) (dflt : String) : String :=
  match x with
  | some s => if s != "" then s else dflt
  | none => dflt

/-- In-place update of the first element satisfying `p` (the object returned
by `find` / `findOne`); the list is unchanged when there is none. -/
def updateFirst {α : Type} (p : α → Bool) (f : α → α) : List α → List α
  | [] => []
  | x :: xs => if p x then f x :: xs else x :: updateFirst p f xs

/-- The four assignments that free a slot:
`booked = false; endTime = null; registrationNumber = null; userId = null`. -/
def Slot.clear (s : Slot) : Slot :=
  { s with booked := false, endTime := none, registrationNumber := none, userId := none }

/-- The four assignments that occupy a slot. -/
def Slot.occupy (s : Slot) (endTime : JsDate) (registrationNumber : String)
    (userId : Option String) : Slot :=
  { s with booked := true, endTime := some endTime,
           registrationNumber := some registrationNumber, userId := userId }

/-- The slots created at start-up and by `/api/admin/reset`:
`Array.from({ length: 10 }, (_, i) => ({ id: i + 1, booked: false, ... }))`. -/
def initialSlots : List Slot :=
  (List.range 10).map fun i =>
    { id := i + 1, booked := false, endTime := none, registrationNumber := none, userId := none }

/-- The initial in-memory store `memoryDB`. -/
def memoryDB : Store :=
  { users := [], slots := initialSlots, bookingHistory := [] }

/-- The rate table of `/api/slots/book`: `{ 1: 50, 2: 100, 3: 150 }[hours]`. -/
def rateTable (hours : Int) : Option Int :=
  if hours = 1 then some 50
  else if hours = 2 then some 100
  else if hours = 3 then some 150
  else none

/-! ## Expiry cleanup -/

/-- The cleanup condition `slot.booked && slot.endTime && slot.endTime < now`. -/
def Slot.isExpired (now : Int) (s : Slot) : Bool :=
  s.booked && (match s.endTime with
    | some t => decide (t < (now : JsDate))
    | none => false)

/-- One run of the `setInterval` cleanup callback.  Both branches free every
slot that is booked with an end time before `now`; neither touches the booking
history. -/
def cleanupExpired (st : Store) (now : Int) : Store :=
  { st with slots := st.slots.map fun s => if s.isExpired now then s.clear else s }

/-! ## Request handlers -/

/-- Body of `POST /api/payment`. -/
structure PaymentBody where
  slotNumber : Nat
  duration : Int
  amount : Int
  email : String
deriving DecidableEq, Repr

/-- Body of `POST /api/slots/book`. -/
structure BookBody where
  slotId : Nat
  hours : Int
  registrationNumber : String
deriving DecidableEq, Repr

/-- The handler `POST /api/payment`.  `userId` is `req.userId` set by
`verifyToken`; `oid` is the ObjectId Mongoose generates for a new document
(database branch only).  In the database branch `booking.save()` throws on an
Invalid Date `endTime` before anything is written, and the `catch` branch
answers 500. -/
def payment (dbConnected : Bool) (st : Store) (userId : String) (body : PaymentBody)
    (now : Int) (oid : String) : Response × Store :=
  match st.slots.find? (fun s => s.id == body.slotNumber) with
  | none => (.failure 400 "Slot not available", st)
  | some slot =>
    if slot.booked then (.failure 400 "Slot not available", st)
    else
      let endTime := JsDate.ofValue (now + body.duration * 60 * 60 * 1000)
      if dbConnected then
        let user := st.users.find? (fun u => u._id == userId)
        let reg := orElse (user.bind fun u => u.registrationNumber) "N/A"
        let booking : Booking :=
          { _id := oid, userId := some userId, slot := body.slotNumber,
            registrationNumber := reg, hours := body.duration, amount := body.amount,
            paymentStatus := "completed", bookedTime := now, endTime := endTime,
            status := .active, refundStatus := none, refundAmount := none,
            refundApprovedAt := none }
        if endTime = JsDate.invalid then
          (.failure 500 "Payment processing failed", st)
        else
          (.success "Payment successful" (some oid),
            { st with
              bookingHistory := st.bookingHistory ++ [booking],
              slots := updateFirst (fun s => s.id == body.slotNumber)
                (fun s => s.occupy endTime reg (some userId)) st.slots })
      else
        let user := st.users.find? (fun u => u.email == body.email)
        let reg := orElse (user.bind fun u => u.vehicleRegistration) "N/A"
        let bookingId := "booking_" ++ toString now
        let booking : Booking :=
          { _id := bookingId, userId := user.map fun u => u._id, slot := body.slotNumber,
            registrationNumber := reg, hours := body.duration, amount := body.amount,
            paymentStatus := "completed", bookedTime := now, endTime := endTime,
            status := .active, refundStatus := none, refundAmount := none,
            refundApprovedAt := none }
        (.success "Payment successful" (some bookingId),
          { st with
            bookingHistory := st.bookingHistory ++ [booking],
            slots := updateFirst (fun s => s.id == body.slotNumber)
              (fun s => s.occupy endTime reg (user.map fun u => u._id)) st.slots })

/-- The handler `POST /api/slots/book` (database only).  `Slot.updateOne`
throws on an Invalid Date `endTime` before anything is written, and the
`catch` branch answers 500. -/
def slotsBook (st : Store) (userId : String) (body : BookBody) (now : Int) (oid : String) :
    Response × Store :=
  if body.slotId == 0 || body.hours == 0 || body.registrationNumber == "" then
    (.failure 400 "Missing required fields", st)
  else
    match st.slots.find? (fun s => s.id == body.slotId) with
    | none => (.failure 404 "Slot not found", st)
    | some slot =>
      if slot.booked then (.failure 400 "Slot already booked", st)
      else
        let endTime := JsDate.ofValue (now + body.hours * 60 * 60 * 1000)
        let amount := (rateTable body.hours).getD 0
        let booking : Booking :=
          { _id := oid, userId := some userId, slot := body.slotId,
            registrationNumber := body.registrationNumber, hours := body.hours,
            amount := amount, paymentStatus := "completed", bookedTime := now,
            endTime := endTime, status := .active, refundStatus := none,
            refundAmount := none, refundApprovedAt := none }
        if endTime = JsDate.invalid then
          (.failure 500 "Failed to book slot", st)
        else
          (.success "Slot booked successfully" (some oid),
            { st with
              slots := updateFirst (fun s => s.id == body.slotId)
                (fun s => s.occupy endTime body.registrationNumber (some userId)) st.slots,
              bookingHistory := st.bookingHistory ++ [booking] })

/-- The handler `POST /api/slots/cancel/:slotId` (database only). -/
def slotsCancel (st : Store) (slotId : Nat) : Response × Store :=
  match st.slots.find? (fun s => s.id == slotId) with
  | none => (.failure 404 "Slot not found", st)
  | some slot =>
    if !slot.booked then (.failure 400 "Slot is not booked", st)
    else
      (.success "Booking cancelled" none,
        { st with slots := updateFirst (fun s => s.id == slotId) Slot.clear st.slots })

/-- The lookup of `POST /api/bookings/cancel`:
`b.userId === req.userId && b.slot === slotNumber && b.status === "active"`. -/
def isActiveBookingOf (userId : String) (slotNumber : Nat) (b : Booking) : Bool :=
  b.userId == some userId && b.slot == slotNumber && b.status == Status.active

/-- The handler `POST /api/bookings/cancel`.  The database branch and the
in-memory branch perform the same lookup and the same two writes. -/
def bookingsCancel (st : Store) (userId : String) (slotNumber : Nat) : Response × Store :=
  match st.bookingHistory.find? (isActiveBookingOf userId slotNumber) with
  | none => (.failure 404 "Booking not found", st)
  | some _ =>
    (.success "Booking cancelled successfully" none,
      { st with
        bookingHistory := updateFirst (isActiveBookingOf userId slotNumber)
          (fun b => { b with status := .cancelled }) st.bookingHistory,
        slots := updateFirst (fun s => s.id == slotNumber) Slot.clear st.slots })

/-- The handler `POST /api/admin/release-slot/:slotId`.  Both branches mark
the occupant's active booking `released` when `slot.userId` is truthy, then
clear the slot; the response is a success in every case. -/
def adminReleaseSlot (st : Store) (slotId : Nat) : Response × Store :=
  match st.slots.find? (fun s => s.id == slotId) with
  | none => (.success "Slot released" none, st)
  | some slot =>
    (.success "Slot released" none,
      { st with
        bookingHistory :=
          if truthy slot.userId then
            updateFirst
              (fun b => b.userId == slot.userId && b.slot == slotId && b.status == Status.active)
              (fun b => { b with status := .released }) st.bookingHistory
          else st.bookingHistory,
        slots := updateFirst (fun s => s.id == slotId) Slot.clear st.slots })

/-- The in-memory branch of `POST /api/admin/approve-refund`. -/
def approveRefund (st : Store) (refundId : String) (amount : Int) (userName : String)
    (now : Int) : Response × Store :=
  match st.bookingHistory.find? (fun b => b._id == refundId) with
  | none => (.failure 404 "Refund not found", st)
  | some _ =>
    (.success ("Refund of ₹" ++ toString amount ++ " approved for " ++ userName) none,
      { st with
        bookingHistory := updateFirst (fun b => b._id == refundId)
          (fun b => { b with refundStatus := some "approved", refundAmount := some amount,
                             refundApprovedAt := some now }) st.bookingHistory })

/-- The handler `POST /api/admin/reset` (database only): both collections are
emptied and ten free slots are inserted. -/
def adminReset (st : Store) : Response × Store :=
  (.success "All data reset" none, { st with slots := initialSlots, bookingHistory := [] })

/-! ## Traces -/

/-- The operations of the booking lifecycle. -/
inductive Op where
  | book (userId : String) (body : PaymentBody) (now : Int) (oid : String)
  | cancel (userId : String) (slotNumber : Nat)
  | release (slotId : Nat)
  | approve (refundId : String) (amount : Int) (userName : String) (now : Int)
  | tick (now : Int)
deriving DecidableEq, Repr

/-- The store after one operation.  The database branch of
`POST /api/admin/approve-refund` assigns `refundStatus`, `refundAmount` and
`refundApprovedAt` on a document whose schema has no such paths, so `save()`
persists nothing and the collections are unchanged. -/
def step (dbConnected : Bool) (st : Store) : Op → Store
  | .book userId body now oid => (payment dbConnected st userId body now oid).2
  | .cancel userId slotNumber => (bookingsCancel st userId slotNumber).2
  | .release slotId => (adminReleaseSlot st slotId).2
  | .approve refundId amount userName now =>
    if dbConnected then st else (approveRefund st refundId amount userName now).2
  | .tick now => cleanupExpired st now

/-- The store after a sequence of operations, oldest first. -/
def run (dbConnected : Bool) (st : Store) (ops : List Op) : Store :=
  ops.foldl (step dbConnected) st

/-- The stores the in-memory server reaches from `memoryDB` (ten free slots,
empty booking history) by a sequence of operations. -/
def Reachable (st : Store) : Prop :=
  ∃ ops : List Op, st = run false memoryDB ops

/-- The stores the database-backed server reaches, by a sequence of
operations, from the collections `/api/admin/reset` leaves behind. -/
def ReachableDb (users : List User) (st : Store) : Prop :=
  ∃ ops : List Op,
    st = run true (adminReset { users := users, slots := [], bookingHistory := [] }).2 ops

/-- The active bookings that reference slot `n`. -/
def activeFor (st : Store) (n : Nat) : List Booking :=
  st.bookingHistory.filter fun b => b.slot == n && b.status == Status.active

/-- The slot the store returns for slot number `n`. -/
def slotOf (st : Store) (n : Nat) : Option Slot :=
  st.slots.find? fun s => s.id == n

/-! ## Sample requests and traces -/

/-- A one-hour payment request for slot 1 at the table price. -/
def oneHourSlot1 : PaymentBody :=
  { slotNumber := 1, duration := 1, amount := 50, email := "asha@example.org" }

/-- Slot 1 is booked for one hour at time 0 and the cleanup timer runs after
the hold has lapsed. -/
def bookThenExpire : List Op :=
  [.book "u1" oneHourSlot1 0 "", .tick 3600001]

/-- Slot 1 is booked for one hour, the hold lapses, and slot 1 is booked
again. -/
def rebookAfterExpiry : List Op :=
  [.book "u1" oneHourSlot1 0 "", .tick 3600001, .book "u2" oneHourSlot1 3600002 ""]

/-- Database server: `u1` books slot 1 for one hour, the hold lapses, and
`u2` books slot 1. -/
def takenOverSlot : List Op :=
  [.book "u1" oneHourSlot1 0 "b1", .tick 3600001, .book "u2" oneHourSlot1 3600002 "b2"]

/-- The database store after a reset and one booking of slot 1 by `u1`. -/
def slot1HeldByU1 : Store :=
  run true (adminReset { users := [], slots := [], bookingHistory := [] }).2
    [.book "u1" oneHourSlot1 0 "b1"]

/-- The database store after a reset and the trace `takenOverSlot`: slot 1 is
held by `u2`, and the lapsed booking of `u1` is still in the history. -/
def slot1TakenOver : Store :=
  run true (adminReset { users := [], slots := [], bookingHistory := [] }).2 takenOverSlot

/-- A two-hour payment request for slot 3 at the table price. -/
def twoHoursSlot3 : PaymentBody :=
  { slotNumber := 3, duration := 2, amount := 100, email := "asha@example.org" }

/-- The in-memory store after `u1` has booked slot 3 for two hours. -/
def slot3Booked : Store :=
  run false memoryDB [.book "u1" twoHoursSlot3 0 ""]

/-- The in-memory store after one booking of slot 1. -/
def slot1Booked : Store :=
  run false memoryDB [.book "u1" oneHourSlot1 0 ""]

/-! ## Store predicates -/

/-- Every slot with `booked = false` carries no occupant data. -/
def FreeSlotsClean (st : Store) : Prop :=
  ∀ s ∈ st.slots, s.booked = false → s.clear = s

/-- Every booking of `before` is still at its position in `after`, with the
same id, and with the same status unless that status was `active`. -/
def KeepsBookings (before after : List Booking) : Prop :=
  ∀ (i : Nat) (b : Booking), before[i]? = some b →
    ∃ b' : Booking, after[i]? = some b' ∧ b'._id = b._id ∧
      (b.status ≠ Status.active → b'.status = b.status)

/-- A booking with its `refundApprovedAt` timestamp blanked. -/
def Booking.withoutApprovedAt (b : Booking) : Booking :=
  { b with refundApprovedAt := none }

/-- A store with every `refundApprovedAt` timestamp blanked: two stores with
the same image are equal up to those timestamps. -/
def Store.withoutApprovedAt (st : Store) : Store :=
  { st with bookingHistory := st.bookingHistory.map Booking.withoutApprovedAt }

/-! ## Dashboard statistics -/

/-- The value of `x || 0` for a number. -/
def orZero (x : Int) : Int :=
  if x = 0 then 0 else x

/-- The `stats` object of `GET /api/admin/stats` (without `occupancyRate`,
a formatted decimal). -/
structure Stats where
  totalUsers : Nat
  totalBookings : Nat
  totalRevenue : Int
  activeBookings : Nat
  availableSlots : Nat
  totalSlots : Nat
deriving DecidableEq, Repr

/-- The handler `GET /api/admin/stats`.  The in-memory branch filters the
active bookings and folds `sum + (b.amount || 0)` over them; the database
branch counts and sums the same bookings with `$match` / `$sum`. -/
def adminStats (st : Store) : Stats :=
  let bookings := st.bookingHistory.filter fun b => b.status == Status.active
  let bookedSlots := (st.slots.filter fun s => s.booked).length
  { totalUsers := st.users.length,
    totalBookings := bookings.length,
    totalRevenue := bookings.foldl (fun sum b => sum + orZero b.amount) 0,
    activeBookings := bookedSlots,
    availableSlots := st.slots.length - bookedSlots,
    totalSlots := st.slots.length }

/-! ## All routes that write the store -/

/-- The lifecycle operations together with the routes that have no in-memory
branch: `POST /api/slots/book`, `POST /api/slots/cancel/:slotId` and
`POST /api/admin/reset`. -/
inductive ServerOp where
  | lifecycle (op : Op)
  | slotsBook (userId : String) (body : BookBody) (now : Int) (oid : String)
  | slotsCancel (slotId : Nat)
  | reset
deriving DecidableEq, Repr

/-- The store after one server operation.  The routes without an in-memory
branch work on the database collections only and never touch `memoryDB`. -/
def stepServer (dbConnected : Bool) (st : Store) : ServerOp → Store
  | .lifecycle op => step dbConnected st op
  | .slotsBook userId body now oid =>
    if dbConnected then (slotsBook st userId body now oid).2 else st
  | .slotsCancel slotId => if dbConnected then (slotsCancel st slotId).2 else st
  | .reset => if dbConnected then (adminReset st).2 else st

/-- The store after a sequence of server operations, oldest first. -/
def runServer (dbConnected : Bool) (st : Store) (ops : List ServerOp) : Store :=
  ops.foldl (stepServer dbConnected) st

/-! ## Authentication middleware and route registration -/

/-- The middleware `verifyToken`.  `jwtVerify` stands for
`jwt.verify(token, JWT_SECRET)` followed by reading `decoded.userId`; it
returns `none` when verification throws.  The result is the `req.userId`
handed to the handler, or the 401 response. -/
def verifyToken (jwtVerify : String → Option String) (authorization : Option String) :
    Except Response String :=
  match authorization.bind fun h => (h.splitOn " ")[1]? with
  | none => .error (.failure 401 "No token provided")
  | some token =>
    if token == "" then .error (.failure 401 "No token provided")
    else
      match jwtVerify token with
      | some userId => .ok userId
      | none => .error (.failure 401 "Invalid token")

/-- The route `app.post("/api/admin/reset", async (req, res) => ...)`: the
handler is registered without middleware, so the `Authorization` header is not
looked at. -/
def postAdminReset (_authorization : Option String) (st : Store) : Response × Store :=
  adminReset st

/-- The route `app.post("/api/admin/approve-refund", async (req, res) => ...)`
(in-memory branch): registered without middleware. -/
def postAdminApproveRefund (_authorization : Option String) (st : Store) (refundId : String)
    (amount : Int) (userName : String) (now : Int) : Response × Store :=
  approveRefund st refundId amount userName now

/-- The route `app.post("/api/bookings/cancel", verifyToken, ...)`: the handler
runs only when the middleware accepts the token. -/
def postBookingsCancel (jwtVerify : String → Option String) (authorization : Option String)
    (st : Store) (slotNumber : Nat) : Response × Store :=
  match verifyToken jwtVerify authorization with
  | .error response => (response, st)
  | .ok userId => bookingsCancel st userId slotNumber

/-! ## Interleaving of two `POST /api/slots/book` requests

The handler suspends at each `await`; between two suspension points it runs
without interruption.  A request is therefore a sequence of four steps: read
the slot (`await Slot.findOne`), check it, write the slot
(`await Slot.updateOne`), write the booking (`await booking.save()`). -/

/-- How far a `POST /api/slots/book` request has got. -/
inductive BookPhase where
  | start
  | slotRead (slot : Option Slot)
  | checked (endTime : JsDate) (amount : Int)
  | slotWritten (endTime : JsDate) (amount : Int)
  | done (response : Response)
deriving DecidableEq, Repr

/-- A `POST /api/slots/book` request in flight. -/
structure BookTask where
  userId : String
  body : BookBody
  now : Int
  oid : String
  phase : BookPhase
deriving DecidableEq, Repr

/-- One step of a `POST /api/slots/book` request on the current database. -/
def slotsBookStep (st : Store) (t : BookTask) : Store × BookTask :=
  match t.phase with
  | .start =>
    if t.body.slotId == 0 || t.body.hours == 0 || t.body.registrationNumber == "" then
      (st, { t with phase := .done (.failure 400 "Missing required fields") })
    else
      (st, { t with phase := .slotRead (st.slots.find? fun s => s.id == t.body.slotId) })
  | .slotRead none => (st, { t with phase := .done (.failure 404 "Slot not found") })
  | .slotRead (some slot) =>
    if slot.booked then (st, { t with phase := .done (.failure 400 "Slot already booked") })
    else
      let endTime := JsDate.ofValue (t.now + t.body.hours * 60 * 60 * 1000)
      let amount := (rateTable t.body.hours).getD 0
      (st, { t with phase := .checked endTime amount })
  | .checked endTime amount =>
    if endTime = JsDate.invalid then
      (st, { t with phase := .done (.failure 500 "Failed to book slot") })
    else
      ({ st with
          slots := updateFirst (fun s => s.id == t.body.slotId)
            (fun s => s.occupy endTime t.body.registrationNumber (some t.userId)) st.slots },
        { t with phase := .slotWritten endTime amount })
  | .slotWritten endTime amount =>
    ({ st with
        bookingHistory := st.bookingHistory ++
          [{ _id := t.oid, userId := some t.userId, slot := t.body.slotId,
             registrationNumber := t.body.registrationNumber, hours := t.body.hours,
             amount := amount, paymentStatus := "completed", bookedTime := t.now,
             endTime := endTime, status := .active, refundStatus := none,
             refundAmount := none, refundApprovedAt := none }] },
      { t with phase := .done (.success "Slot booked successfully" (some t.oid)) })
  | .done _ => (st, t)

/-- Two requests in flight on one database; the schedule says which request
takes the next step (`false` the first, `true` the second). -/
def interleave (st : Store) (a b : BookTask) : List Bool → Store × BookTask × BookTask
  | [] => (st, a, b)
  | false :: rest => interleave (slotsBookStep st a).1 (slotsBookStep st a).2 b rest
  | true :: rest => interleave (slotsBookStep st b).1 a (slotsBookStep st b).2 rest

/-- A request run alone from start to finish (four steps). -/
def slotsBookAlone (st : Store) (t : BookTask) : Store × BookTask :=
  let r1 := slotsBookStep st t
  let r2 := slotsBookStep r1.1 r1.2
  let r3 := slotsBookStep r2.1 r2.2
  slotsBookStep r3.1 r3.2

/-! ## More sample stores -/

/-- The in-memory store with two registered users (never reached by the
server, which does not write `memoryDB.users`). -/
def twoUsers : Store :=
  { memoryDB with
    users := [{ _id := "asha", email := "asha@example.org", registrationNumber := none,
                vehicleRegistration := none },
              { _id := "ravi", email := "ravi@example.org", registrationNumber := none,
                vehicleRegistration := none }] }

/-- Two two-hour bookings, of slots 1 and 2, handled in the same millisecond. -/
def sameMillisecond : List Op :=
  [.book "u1" { slotNumber := 1, duration := 2, amount := 100, email := "asha@example.org" }
      1700000000000 "",
   .book "u2" { slotNumber := 2, duration := 2, amount := 100, email := "ravi@example.org" }
      1700000000000 ""]

/-- The database after a reset, with no registered user. -/
def freshDb : Store :=
  (adminReset { users := [], slots := [], bookingHistory := [] }).2

/-- The request of `u1` for slot 1 in the race. -/
def raceFirst : BookTask :=
  { userId := "u1", body := { slotId := 1, hours := 1, registrationNumber := "KA01AB1234" },
    now := 0, oid := "b1", phase := .start }

/-- The request of `u2` for slot 1 in the race. -/
def raceSecond : BookTask :=
  { userId := "u2", body := { slotId := 1, hours := 2, registrationNumber := "MH02CD5678" },
    now := 0, oid := "b2", phase := .start }

/-- Both requests read and check the slot before either writes. -/
def raceSchedule : List Bool :=
  [false, true, false, true, false, false, true, true]

/-- The database store after `u1` has booked slot 1 and cancelled it. -/
def slot1Cancelled : Store :=
  (bookingsCancel slot1HeldByU1 "u1" 1).2

/-! ## List lemmas for `find?` and `updateFirst` -/

theorem updateFirst_append_cons {α : Type} (p : α → Bool) (f : α → α)
    (pre : List α) (x : α) (post : List α)
    (hpre : ∀ y ∈ pre, p y = false) (hx : p x = true) :
    updateFirst p f (pre ++ x :: post) = pre ++ f x :: post := by
  induction pre with
  | nil => simp [updateFirst, hx]
  | cons y ys ih =>
    have hy : p y = false := hpre y (List.mem_cons_self _ _)
    have hys : ∀ z ∈ ys, p z = false := fun z hz => hpre z (List.mem_cons_of_mem _ hz)
    simp [updateFirst, hy, ih hys]

theorem updateFirst_of_find?_none {α : Type} (p : α → Bool) (f : α → α) (l : List α)
    (h : l.find? p = none) : updateFirst p f l = l := by
  induction l with
  | nil => rfl
  | cons y ys ih =>
    by_cases hy : p y = true
    · simp [List.find?, hy] at h
    · simp only [Bool.not_eq_true] at hy
      simp only [List.find?, hy] at h
      simp [updateFirst, hy, ih h]

theorem find?_split {α : Type} (p : α → Bool) (l : List α) (x : α)
    (h : l.find? p = some x) :
    ∃ pre post, l = pre ++ x :: post ∧ (∀ y ∈ pre, p y = false) ∧ p x = true := by
  obtain ⟨hx, pre, post, hl, hpre⟩ := List.find?_eq_some.mp h
  refine ⟨pre, post, hl, fun y hy => ?_, hx⟩
  simpa using hpre y hy

/-! ## What a successful booking writes -/

theorem find?_append_cons_self {α : Type} (p : α → Bool) (pre post : List α) (x : α)
    (hpre : ∀ y ∈ pre, p y = false) (hx : p x = true) :
    (pre ++ x :: post).find? p = some x := by
  induction pre with
  | nil => simp [hx]
  | cons y ys ih =>
    have hy : p y = false := hpre y (List.mem_cons_self _ _)
    have hys : ∀ z ∈ ys, p z = false := fun z hz => hpre z (List.mem_cons_of_mem _ hz)
    simpa [List.find?, hy] using ih hys

theorem ofValue_of_inRange (value : Int) (h : value.natAbs ≤ 8640000000000000) :
    JsDate.ofValue value = JsDate.valid value := by
  simp [JsDate.ofValue, h]

theorem ofValue_of_outOfRange (value : Int) (h : ¬ value.natAbs ≤ 8640000000000000) :
    JsDate.ofValue value = JsDate.invalid := by
  simp [JsDate.ofValue, h]

theorem valid_lt_valid (a b : Int) : (JsDate.valid a < JsDate.valid b) ↔ a < b := by
  show (JsDate.before (JsDate.valid a) (JsDate.valid b) = true) ↔ a < b
  simp [JsDate.before]

theorem not_invalid_lt (d : JsDate) : ¬ (JsDate.invalid < d) := by
  show ¬ (JsDate.before JsDate.invalid d = true)
  simp [JsDate.before]

theorem payment_of_free (dbConnected : Bool) (st : Store) (userId : String)
    (body : PaymentBody) (now : Int) (oid : String) (slot : Slot)
    (hfind : st.slots.find? (fun s => s.id == body.slotNumber) = some slot)
    (hfree : slot.booked = false)
    (hrange : (now + body.duration * 3600000).natAbs ≤ 8640000000000000) :
    ∃ (b : Booking) (pre post : List Slot) (reg : String) (uid : Option String),
      payment dbConnected st userId body now oid
        = (Response.success "Payment successful" (some b._id),
            { users := st.users,
              slots := pre ++
                slot.occupy (JsDate.valid (now + body.duration * 3600000)) reg uid :: post,
              bookingHistory := st.bookingHistory ++ [b] }) ∧
      st.slots = pre ++ slot :: post ∧
      (∀ y ∈ pre, (y.id == body.slotNumber) = false) ∧
      (slot.id == body.slotNumber) = true ∧
      b.status = Status.active ∧ b.slot = body.slotNumber ∧
      b.hours = body.duration ∧ b.amount = body.amount ∧
      b.endTime = JsDate.valid (now + body.duration * 3600000) ∧
      b.userId = uid ∧ b.registrationNumber = reg := by
  obtain ⟨pre, post, hl, hpre, hx⟩ := find?_split _ _ _ hfind
  have hup : ∀ f : Slot → Slot,
      updateFirst (fun s => s.id == body.slotNumber) f st.slots = pre ++ f slot :: post := by
    intro f
    rw [hl]
    exact updateFirst_append_cons _ f pre slot post hpre hx
  have hms : JsDate.ofValue (now + body.duration * 60 * 60 * 1000)
      = JsDate.valid (now + body.duration * 3600000) := by
    have h1 : now + body.duration * 60 * 60 * 1000 = now + body.duration * 3600000 := by ring
    rw [h1]
    exact ofValue_of_inRange _ hrange
  cases dbConnected
  · refine ⟨{ _id := "booking_" ++ toString now,
              userId := (st.users.find? (fun u => u.email == body.email)).map fun u => u._id,
              slot := body.slotNumber,
              registrationNumber :=
                orElse ((st.users.find? (fun u => u.email == body.email)).bind
                  fun u => u.vehicleRegistration) "N/A",
              hours := body.duration, amount := body.amount, paymentStatus := "completed",
              bookedTime := now, endTime := JsDate.valid (now + body.duration * 3600000),
              status := .active, refundStatus := none, refundAmount := none,
              refundApprovedAt := none },
      pre, post, _, _, ?_, hl, hpre, hx, rfl, rfl, rfl, rfl, rfl, rfl, rfl⟩
    simp [payment, hfind, hfree, hup, hms]
  · refine ⟨{ _id := oid, userId := some userId, slot := body.slotNumber,
              registrationNumber :=
                orElse ((st.users.find? (fun u => u._id == userId)).bind
                  fun u => u.registrationNumber) "N/A",
              hours := body.duration, amount := body.amount, paymentStatus := "completed",
              bookedTime := now, endTime := JsDate.valid (now + body.duration * 3600000),
              status := .active, refundStatus := none, refundAmount := none,
              refundApprovedAt := none },
      pre, post, _, _, ?_, hl, hpre, hx, rfl, rfl, rfl, rfl, rfl, rfl, rfl⟩
    simp [payment, hfind, hfree, hup, hms]

theorem slotsBook_of_free (st : Store) (userId : String) (body : BookBody) (now : Int)
    (oid : String) (slot : Slot)
    (hfields : (body.slotId == 0 || body.hours == 0 || body.registrationNumber == "") = false)
    (hfind : st.slots.find? (fun s => s.id == body.slotId) = some slot)
    (hfree : slot.booked = false)
    (hrange : (now + body.hours * 3600000).natAbs ≤ 8640000000000000) :
    ∃ (b : Booking) (pre post : List Slot),
      slotsBook st userId body now oid
        = (Response.success "Slot booked successfully" (some b._id),
            { users := st.users,
              slots := pre ++ slot.occupy (JsDate.valid (now + body.hours * 3600000))
                body.registrationNumber (some userId) :: post,
              bookingHistory := st.bookingHistory ++ [b] }) ∧
      st.slots = pre ++ slot :: post ∧
      (∀ y ∈ pre, (y.id == body.slotId) = false) ∧
      (slot.id == body.slotId) = true ∧
      b.status = Status.active ∧ b.slot = body.slotId ∧
      b.hours = body.hours ∧ b.amount = (rateTable body.hours).getD 0 ∧
      b.endTime = JsDate.valid (now + body.hours * 3600000) ∧ b.userId = some userId := by
  obtain ⟨pre, post, hl, hpre, hx⟩ := find?_split _ _ _ hfind
  have hup : ∀ f : Slot → Slot,
      updateFirst (fun s => s.id == body.slotId) f st.slots = pre ++ f slot :: post := by
    intro f
    rw [hl]
    exact updateFirst_append_cons _ f pre slot post hpre hx
  have hms : JsDate.ofValue (now + body.hours * 60 * 60 * 1000)
      = JsDate.valid (now + body.hours * 3600000) := by
    have h1 : now + body.hours * 60 * 60 * 1000 = now + body.hours * 3600000 := by ring
    rw [h1]
    exact ofValue_of_inRange _ hrange
  refine ⟨{ _id := oid, userId := some userId, slot := body.slotId,
            registrationNumber := body.registrationNumber, hours := body.hours,
            amount := (rateTable body.hours).getD 0, paymentStatus := "completed",
            bookedTime := now, endTime := JsDate.valid (now + body.hours * 3600000),
            status := .active, refundStatus := none, refundAmount := none,
            refundApprovedAt := none },
    pre, post, ?_, hl, hpre, hx, rfl, rfl, rfl, rfl, rfl, rfl⟩
  simp only [slotsBook, hfields, hfind, hfree, hup, hms]
  simp

/-! ## Exclusivity and slot coherence on reachable stores -/

/-- Claim C1 (exclusivity, violated by the code): the store reached by booking
slot 1 through `POST /api/payment`, letting the hold lapse under the cleanup
timer and booking slot 1 again holds two bookings with status `active` for
slot 1, so "at most one active booking per slot" fails on a reachable store.
The cleanup timer frees the slot and leaves the lapsed booking `active`. -/
theorem two_active_bookings_after_expiry :
    Reachable (run false memoryDB rebookAfterExpiry) ∧
    (activeFor (run false memoryDB rebookAfterExpiry) 1).length = 2 ∧
    ¬ (∀ st, Reachable st → ∀ n, (activeFor st n).length ≤ 1) := by
  refine ⟨⟨_, rfl⟩, by decide, fun h => ?_⟩
  have h1 := h (run false memoryDB rebookAfterExpiry) ⟨_, rfl⟩ 1
  revert h1
  decide

/-- Claim C2 (booked iff exactly one active booking, violated by the code):
after slot 1 is booked and its hold has lapsed under the cleanup timer, slot 1
has `booked = false` while exactly one booking with status `active` still
references it. -/
theorem free_slot_with_active_booking_after_expiry :
    Reachable (run false memoryDB bookThenExpire) ∧
    (slotOf (run false memoryDB bookThenExpire) 1).map (fun s => s.booked) = some false ∧
    (activeFor (run false memoryDB bookThenExpire) 1).length = 1 := by
  refine ⟨⟨_, rfl⟩, by decide, by decide⟩

/-- Claim C3 (slot coherence, violated by the code): after one
`POST /api/payment` on the in-memory server, slot 1 is booked with an end time
and its `userId` is still null, so `booked == false` and `userId == null` are
not equivalent on a reachable store.  The in-memory branch takes the user id
from a lookup in `memoryDB.users`, which no handler ever fills. -/
theorem booked_slot_without_user_id :
    Reachable (run false memoryDB [.book "u1" oneHourSlot1 0 ""]) ∧
    slotOf (run false memoryDB [.book "u1" oneHourSlot1 0 ""]) 1
      = some { id := 1, booked := true, endTime := some 3600000,
               registrationNumber := some "N/A", userId := none } := by
  refine ⟨⟨_, rfl⟩, by decide⟩

/-! ## Declined bookings -/

/-- Claim C4: when the slot the store returns for number `n` is booked, a
book request for `n` is declined with status 400 and an error body, and the
store (every slot, the whole booking history) is returned unchanged.  This
holds for `POST /api/payment` in both branches and for `POST /api/slots/book`,
whatever the other request fields are. -/
theorem book_declined_when_slot_booked (dbConnected : Bool) (st : Store) (n : Nat)
    (slot : Slot) (hfind : st.slots.find? (fun s => s.id == n) = some slot)
    (hbooked : slot.booked = true) (userId : String) (now : Int) (oid : String) :
    (∀ (duration amount : Int) (email : String),
      payment dbConnected st userId
          { slotNumber := n, duration := duration, amount := amount, email := email } now oid
        = (Response.failure 400 "Slot not available", st)) ∧
    (∀ (hours : Int) (registrationNumber : String), ∃ msg : String,
      slotsBook st userId
          { slotId := n, hours := hours, registrationNumber := registrationNumber } now oid
        = (Response.failure 400 msg, st)) := by
  constructor
  · intro duration amount email
    simp [payment, hfind, hbooked]
  · intro hours registrationNumber
    by_cases hmiss : (n == 0 || hours == 0 || registrationNumber == "") = true
    · exact ⟨"Missing required fields", by simp only [slotsBook, hmiss, if_true]⟩
    · exact ⟨"Slot already booked", by simp only [slotsBook, hmiss, hfind, hbooked, if_true]; simp⟩

/-- Witness for C4: slot 1 of the store reached by one booking of slot 1. -/
theorem book_declined_when_slot_booked_witness :
    (∀ (duration amount : Int) (email : String),
      payment false (run false memoryDB [.book "u1" oneHourSlot1 0 ""]) "u2"
          { slotNumber := 1, duration := duration, amount := amount, email := email } 5 ""
        = (Response.failure 400 "Slot not available",
            run false memoryDB [.book "u1" oneHourSlot1 0 ""])) ∧
    (∀ (hours : Int) (registrationNumber : String), ∃ msg : String,
      slotsBook (run false memoryDB [.book "u1" oneHourSlot1 0 ""]) "u2"
          { slotId := 1, hours := hours, registrationNumber := registrationNumber } 5 ""
        = (Response.failure 400 msg, run false memoryDB [.book "u1" oneHourSlot1 0 ""])) :=
  book_declined_when_slot_booked false (run false memoryDB [.book "u1" oneHourSlot1 0 ""]) 1
    { id := 1, booked := true, endTime := some 3600000,
      registrationNumber := some "N/A", userId := none }
    (by decide) rfl "u2" 5 ""

/-! ## Durations and amounts -/

/-- Claim C5 as stated fails: a five-hour request on free slot 1 is accepted
by `POST /api/payment` (a booking with `hours = 5` is appended and the slot
becomes booked) and by `POST /api/slots/book` (the booking gets amount 0);
neither handler declines a duration outside 1, 2, 3. -/
theorem five_hour_booking_accepted :
    (payment false memoryDB "u1"
        { slotNumber := 1, duration := 5, amount := 250, email := "asha@example.org" } 0 "").1
      = Response.success "Payment successful" (some "booking_0") ∧
    (payment false memoryDB "u1"
        { slotNumber := 1, duration := 5, amount := 250, email := "asha@example.org" } 0
        "").2.bookingHistory.map (fun b => (b.slot, b.hours, b.status))
      = [(1, 5, Status.active)] ∧
    (slotOf (payment false memoryDB "u1"
        { slotNumber := 1, duration := 5, amount := 250, email := "asha@example.org" } 0 "").2
      1).map (fun s => s.booked) = some true ∧
    (slotsBook memoryDB "u1" { slotId := 1, hours := 5, registrationNumber := "KA01AB1234" }
        0 "b1").1
      = Response.success "Slot booked successfully" (some "b1") ∧
    (slotsBook memoryDB "u1" { slotId := 1, hours := 5, registrationNumber := "KA01AB1234" }
        0 "b1").2.bookingHistory.map (fun b => (b.slot, b.hours, b.amount))
      = [(1, 5, 0)] := by
  refine ⟨by decide, by decide, by decide, by decide, by decide⟩

/-- Claim C5, amended: a duration `d` outside 1, 2, 3 is not a reason to
decline.  When the end time `now + d` hours is a time value a `Date` can hold
(at most 8.64e15 ms from the epoch), then on an existing free slot `n`
`POST /api/payment` succeeds, appends one `active` booking with `hours = d`
and that end time, and the slot becomes booked; `POST /api/slots/book` with
all three fields present (non-zero `slotId` and `hours`, non-empty
`registrationNumber`) succeeds likewise and records amount 0. -/
theorem book_not_declined_for_duration (dbConnected : Bool) (st : Store) (n : Nat)
    (slot : Slot) (hfind : st.slots.find? (fun s => s.id == n) = some slot)
    (hfree : slot.booked = false) (userId : String) (now : Int) (oid : String)
    (d : Int) (hd : d ≠ 1 ∧ d ≠ 2 ∧ d ≠ 3)
    (hrange : (now + d * 3600000).natAbs ≤ 8640000000000000) :
    (∀ (amount : Int) (email : String), ∃ b : Booking,
      (payment dbConnected st userId
          { slotNumber := n, duration := d, amount := amount, email := email } now oid).1
        = Response.success "Payment successful" (some b._id) ∧
      (payment dbConnected st userId
          { slotNumber := n, duration := d, amount := amount, email := email } now
          oid).2.bookingHistory = st.bookingHistory ++ [b] ∧
      b.status = Status.active ∧ b.slot = n ∧ b.hours = d ∧
      b.endTime = JsDate.valid (now + d * 3600000) ∧
      (slotOf (payment dbConnected st userId
          { slotNumber := n, duration := d, amount := amount, email := email } now oid).2
        n).map (fun s => s.booked) = some true) ∧
    (∀ registrationNumber : String, n ≠ 0 → d ≠ 0 → registrationNumber ≠ "" →
      ∃ b : Booking,
      (slotsBook st userId
          { slotId := n, hours := d, registrationNumber := registrationNumber } now oid).1
        = Response.success "Slot booked successfully" (some b._id) ∧
      (slotsBook st userId
          { slotId := n, hours := d, registrationNumber := registrationNumber } now
          oid).2.bookingHistory = st.bookingHistory ++ [b] ∧
      b.status = Status.active ∧ b.slot = n ∧ b.hours = d ∧ b.amount = 0 ∧
      b.endTime = JsDate.valid (now + d * 3600000) ∧
      (slotOf (slotsBook st userId
          { slotId := n, hours := d, registrationNumber := registrationNumber } now oid).2
        n).map (fun s => s.booked) = some true) := by
  constructor
  · intro amount email
    obtain ⟨b, pre, post, reg, uid, hpay, -, hpre, hx, hs, hslot, hh, -, he, -, -⟩ :=
      payment_of_free dbConnected st userId
        { slotNumber := n, duration := d, amount := amount, email := email } now oid slot
        hfind hfree hrange
    refine ⟨b, by rw [hpay], by rw [hpay], hs, hslot, hh, he, ?_⟩
    rw [hpay]
    have hx2 : ((slot.occupy (JsDate.valid (now + d * 3600000)) reg uid).id == n) = true := hx
    simp only [slotOf]
    rw [find?_append_cons_self _ pre post _ hpre hx2]
    rfl
  · intro registrationNumber hn hd0 hreg
    have hfields : (n == 0 || d == 0 || registrationNumber == "") = false := by
      simp [hn, hd0, hreg]
    obtain ⟨b, pre, post, hbook, -, hpre, hx, hs, hslot, hh, ha, he, -⟩ :=
      slotsBook_of_free st userId
        { slotId := n, hours := d, registrationNumber := registrationNumber } now oid slot
        hfields hfind hfree hrange
    have hrate : rateTable d = none := by
      simp [rateTable, hd.1, hd.2.1, hd.2.2]
    refine ⟨b, by rw [hbook], by rw [hbook], hs, hslot, hh, ?_, he, ?_⟩
    · rw [ha]
      simp only [hrate]
      rfl
    · rw [hbook]
      have hx2 : ((slot.occupy (JsDate.valid (now + d * 3600000)) registrationNumber
          (some userId)).id == n) = true := hx
      simp only [slotOf]
      rw [find?_append_cons_self _ pre post _ hpre hx2]
      rfl

/-- Witness for the amended C5: a five-hour request for free slot 1 of
`memoryDB`. -/
theorem book_not_declined_for_duration_witness :
    memoryDB.slots.find? (fun s => s.id == 1)
      = some { id := 1, booked := false, endTime := none, registrationNumber := none,
               userId := none } ∧
    ((5 : Int) ≠ 1 ∧ (5 : Int) ≠ 2 ∧ (5 : Int) ≠ 3) ∧
    ((0 : Int) + 5 * 3600000).natAbs ≤ 8640000000000000 ∧
    (∃ b : Booking,
      (payment false memoryDB "u1"
          { slotNumber := 1, duration := 5, amount := 250, email := "asha@example.org" } 0
          "").1 = Response.success "Payment successful" (some b._id) ∧
      (payment false memoryDB "u1"
          { slotNumber := 1, duration := 5, amount := 250, email := "asha@example.org" } 0
          "").2.bookingHistory = memoryDB.bookingHistory ++ [b] ∧
      b.status = Status.active ∧ b.slot = 1 ∧ b.hours = 5 ∧
      b.endTime = JsDate.valid (0 + 5 * 3600000) ∧
      (slotOf (payment false memoryDB "u1"
          { slotNumber := 1, duration := 5, amount := 250, email := "asha@example.org" } 0
          "").2 1).map (fun s => s.booked) = some true) ∧
    ∃ b : Booking,
      (slotsBook memoryDB "u1"
          { slotId := 1, hours := 5, registrationNumber := "KA01AB1234" } 0 "").1
        = Response.success "Slot booked successfully" (some b._id) ∧
      (slotsBook memoryDB "u1"
          { slotId := 1, hours := 5, registrationNumber := "KA01AB1234" } 0
          "").2.bookingHistory = memoryDB.bookingHistory ++ [b] ∧
      b.status = Status.active ∧ b.slot = 1 ∧ b.hours = 5 ∧ b.amount = 0 ∧
      b.endTime = JsDate.valid (0 + 5 * 3600000) ∧
      (slotOf (slotsBook memoryDB "u1"
          { slotId := 1, hours := 5, registrationNumber := "KA01AB1234" } 0 "").2
        1).map (fun s => s.booked) = some true :=
  ⟨by decide, by decide, by decide,
    (book_not_declined_for_duration false memoryDB 1
      { id := 1, booked := false, endTime := none, registrationNumber := none, userId := none }
      (by decide) rfl "u1" 0 "" 5 (by decide) (by decide)).1 250 "asha@example.org",
    (book_not_declined_for_duration false memoryDB 1
      { id := 1, booked := false, endTime := none, registrationNumber := none, userId := none }
      (by decide) rfl "u1" 0 "" 5 (by decide) (by decide)).2 "KA01AB1234" (by decide)
      (by decide) (by decide)⟩

/-- Claim C6 (amount from the rate table, violated by the code): a one-hour
`POST /api/payment` request carrying `amount: 0` creates a booking with amount
0 in the in-memory branch and in the database branch, and the same request
carrying `amount: 50` creates one with amount 50, so the stored amount is the
request's; the table value for one hour is 50, which is what
`POST /api/slots/book` stores. -/
theorem payment_stores_request_amount :
    (payment false memoryDB "u1"
        { slotNumber := 1, duration := 1, amount := 0, email := "asha@example.org" } 0
        "").2.bookingHistory.map (fun b => (b.hours, b.amount)) = [(1, 0)] ∧
    (payment true memoryDB "u1"
        { slotNumber := 1, duration := 1, amount := 0, email := "asha@example.org" } 0
        "b1").2.bookingHistory.map (fun b => (b.hours, b.amount)) = [(1, 0)] ∧
    (payment false memoryDB "u1"
        { slotNumber := 1, duration := 1, amount := 50, email := "asha@example.org" } 0
        "").2.bookingHistory.map (fun b => (b.hours, b.amount)) = [(1, 50)] ∧
    rateTable 1 = some 50 ∧
    (slotsBook memoryDB "u1" { slotId := 1, hours := 1, registrationNumber := "KA01AB1234" }
        0 "b1").2.bookingHistory.map (fun b => (b.hours, b.amount)) = [(1, 50)] := by
  refine ⟨by decide, by decide, by decide, by decide, by decide⟩

/-! ## Booking a free slot -/

/-- Claim C7 as stated fails for a duration whose end time no `Date` can
hold.  With `duration` 2 400 000 001 at time 0 the end time would be
8 640 000 003 600 000 ms, past the `Date` range: the in-memory branch answers
success but the booking and the slot get an Invalid Date, not `now + h` hours,
and that slot is never expired by the cleanup timer; the database branch
answers 500 and books nothing. -/
theorem far_future_booking_has_no_end_time :
    (payment false memoryDB "u1"
        { slotNumber := 1, duration := 2400000001, amount := 50, email := "asha@example.org" }
        0 "").1 = Response.success "Payment successful" (some "booking_0") ∧
    (payment false memoryDB "u1"
        { slotNumber := 1, duration := 2400000001, amount := 50, email := "asha@example.org" }
        0 "").2.bookingHistory.map (fun b => (b.slot, b.endTime))
      = [(1, JsDate.invalid)] ∧
    slotOf (payment false memoryDB "u1"
        { slotNumber := 1, duration := 2400000001, amount := 50, email := "asha@example.org" }
        0 "").2 1
      = some (Slot.mk 1 true (some JsDate.invalid) (some "N/A") none) ∧
    (Slot.mk 1 true (some JsDate.invalid) (some "N/A") none).isExpired 8640000000000000
      = false ∧
    payment true memoryDB "u1"
        { slotNumber := 1, duration := 2400000001, amount := 50, email := "asha@example.org" }
        0 "b1"
      = (Response.failure 500 "Payment processing failed", memoryDB) := by
  refine ⟨by decide, by decide, by decide, by decide, by decide⟩

/-- Claim C7, amended: for every store, every slot number `n` whose slot
exists and is free, every time `now` and every duration `h` whose end time
`now + h * 3 600 000` ms is a time value a `Date` can hold (at most 8.64e15 ms
from the epoch), `POST /api/payment` succeeds; the new booking history is the
old one with exactly one booking appended, which is `active`, references slot
`n` and ends at `now + h * 3 600 000` ms; the slot found for `n` becomes booked
with the same end time; every other slot, every earlier booking and the users
are unchanged. -/
theorem book_free_slot_appends_active_booking (dbConnected : Bool) (st : Store) (n : Nat)
    (slot : Slot) (hfind : st.slots.find? (fun s => s.id == n) = some slot)
    (hfree : slot.booked = false) (userId : String) (h amount : Int) (email : String)
    (now : Int) (oid : String)
    (hrange : (now + h * 3600000).natAbs ≤ 8640000000000000) :
    ∃ (b : Booking) (slot' : Slot) (pre post : List Slot),
      payment dbConnected st userId
          { slotNumber := n, duration := h, amount := amount, email := email } now oid
        = (Response.success "Payment successful" (some b._id),
            { users := st.users, slots := pre ++ slot' :: post,
              bookingHistory := st.bookingHistory ++ [b] }) ∧
      b.status = Status.active ∧ b.slot = n ∧
      b.endTime = JsDate.valid (now + h * 3600000) ∧
      st.slots = pre ++ slot :: post ∧ (∀ y ∈ pre, y.id ≠ n) ∧
      slot'.id = n ∧ slot'.booked = true ∧
      slot'.endTime = some (JsDate.valid (now + h * 3600000)) := by
  obtain ⟨b, pre, post, reg, uid, hpay, hl, hpre, hx, hs, hslot, -, -, he, -, -⟩ :=
    payment_of_free dbConnected st userId
      { slotNumber := n, duration := h, amount := amount, email := email } now oid slot
      hfind hfree hrange
  refine ⟨b, slot.occupy (JsDate.valid (now + h * 3600000)) reg uid, pre, post, hpay, hs,
    hslot, he, hl, ?_, ?_, rfl, rfl⟩
  · intro y hy hyn
    have := hpre y hy
    simp [hyn] at this
  · simpa [Slot.occupy] using hx

/-- Witness for the amended C7: a two-hour booking of free slot 3 of
`memoryDB`. -/
theorem book_free_slot_appends_active_booking_witness :
    memoryDB.slots.find? (fun s => s.id == 3)
      = some { id := 3, booked := false, endTime := none, registrationNumber := none,
               userId := none } ∧
    ((1000 : Int) + 2 * 3600000).natAbs ≤ 8640000000000000 ∧
    ∃ (b : Booking) (slot' : Slot) (pre post : List Slot),
      payment false memoryDB "u1"
          { slotNumber := 3, duration := 2, amount := 100, email := "asha@example.org" }
          1000 ""
        = (Response.success "Payment successful" (some b._id),
            { users := memoryDB.users, slots := pre ++ slot' :: post,
              bookingHistory := memoryDB.bookingHistory ++ [b] }) ∧
      b.status = Status.active ∧ b.slot = 3 ∧
      b.endTime = JsDate.valid (1000 + 2 * 3600000) ∧
      memoryDB.slots = pre ++ Slot.mk 3 false none none none :: post ∧
      (∀ y ∈ pre, y.id ≠ 3) ∧
      slot'.id = 3 ∧ slot'.booked = true ∧
      slot'.endTime = some (JsDate.valid (1000 + 2 * 3600000)) :=
  ⟨by decide, by decide,
    book_free_slot_appends_active_booking false memoryDB 3
      { id := 3, booked := false, endTime := none, registrationNumber := none, userId := none }
      (by decide) rfl "u1" 2 100 "asha@example.org" 1000 "" (by decide)⟩

/-! ## Cancellation -/

/-- Claim C8: when the booking history holds no booking with `userId = u`,
`slot = n` and status `active`, `POST /api/bookings/cancel` answers
404 "Booking not found" and returns the store unchanged (every slot, every
booking). -/
theorem cancel_without_active_booking (st : Store) (u : String) (n : Nat)
    (hnone : ∀ b ∈ st.bookingHistory,
      ¬ (b.userId = some u ∧ b.slot = n ∧ b.status = Status.active)) :
    bookingsCancel st u n = (Response.failure 404 "Booking not found", st) := by
  have hfind : st.bookingHistory.find? (isActiveBookingOf u n) = none := by
    rw [List.find?_eq_none]
    intro b hb hmatch
    apply hnone b hb
    simpa [isActiveBookingOf, and_assoc] using hmatch
  simp [bookingsCancel, hfind]

/-- Witness for C8: on the in-memory store holding one booking of slot 1
(recorded without a user id), `u1` cancels slot 1. -/
theorem cancel_without_active_booking_witness :
    (∀ b ∈ (run false memoryDB [.book "u1" oneHourSlot1 0 ""]).bookingHistory,
      ¬ (b.userId = some "u1" ∧ b.slot = 1 ∧ b.status = Status.active)) ∧
    bookingsCancel (run false memoryDB [.book "u1" oneHourSlot1 0 ""]) "u1" 1
      = (Response.failure 404 "Booking not found",
          run false memoryDB [.book "u1" oneHourSlot1 0 ""]) :=
  ⟨by decide,
    cancel_without_active_booking (run false memoryDB [.book "u1" oneHourSlot1 0 ""]) "u1" 1
      (by decide)⟩

/-- Claim C9: when user `u` has an active booking for slot `n`,
`POST /api/bookings/cancel` succeeds and makes both changes: the booking `b`
its lookup finds (the first booking of `u` for `n` with status `active`) gets
status `cancelled`, and the slot found for `n` gets `booked = false` with
`endTime`, `registrationNumber` and `userId` null; every other booking, every
other slot and the users are unchanged. -/
theorem cancel_active_booking (st : Store) (u : String) (n : Nat)
    (hex : ∃ b ∈ st.bookingHistory,
      b.userId = some u ∧ b.slot = n ∧ b.status = Status.active) :
    ∃ (b : Booking) (pre post : List Booking),
      st.bookingHistory = pre ++ b :: post ∧
      (b.userId = some u ∧ b.slot = n ∧ b.status = Status.active) ∧
      (∀ y ∈ pre, ¬ (y.userId = some u ∧ y.slot = n ∧ y.status = Status.active)) ∧
      (bookingsCancel st u n).1 = Response.success "Booking cancelled successfully" none ∧
      (bookingsCancel st u n).2.bookingHistory
        = pre ++ { b with status := Status.cancelled } :: post ∧
      (bookingsCancel st u n).2.users = st.users ∧
      (∀ s : Slot, st.slots.find? (fun t => t.id == n) = some s →
        ∃ spre spost : List Slot,
          st.slots = spre ++ s :: spost ∧ (∀ y ∈ spre, y.id ≠ n) ∧
          (bookingsCancel st u n).2.slots = spre ++ Slot.mk s.id false none none none :: spost) ∧
      (st.slots.find? (fun t => t.id == n) = none →
        (bookingsCancel st u n).2.slots = st.slots) := by
  obtain ⟨b0, hb0, hm0⟩ := hex
  have hsome : (st.bookingHistory.find? (isActiveBookingOf u n)).isSome = true := by
    rw [List.find?_isSome]
    exact ⟨b0, hb0, by simp [isActiveBookingOf, hm0.1, hm0.2.1, hm0.2.2]⟩
  obtain ⟨b, hfind⟩ := Option.isSome_iff_exists.mp hsome
  obtain ⟨pre, post, hl, hpre, hx⟩ := find?_split _ _ _ hfind
  have hmatch : ∀ y : Booking, isActiveBookingOf u n y = true ↔
      (y.userId = some u ∧ y.slot = n ∧ y.status = Status.active) := by
    intro y
    simp [isActiveBookingOf, and_assoc]
  refine ⟨b, pre, post, hl, (hmatch b).mp hx, ?_, ?_, ?_, ?_, ?_, ?_⟩
  · intro y hy hym
    have := hpre y hy
    rw [(hmatch y).mpr hym] at this
    exact Bool.noConfusion this
  · simp [bookingsCancel, hfind]
  · simp only [bookingsCancel, hfind]
    rw [hl]
    exact updateFirst_append_cons _ _ pre b post hpre hx
  · simp [bookingsCancel, hfind]
  · intro s hs
    obtain ⟨spre, spost, hsl, hspre, hsx⟩ := find?_split _ _ _ hs
    refine ⟨spre, spost, hsl, ?_, ?_⟩
    · intro y hy hyn
      have := hspre y hy
      simp [hyn] at this
    · simp only [bookingsCancel, hfind]
      rw [hsl]
      exact updateFirst_append_cons _ _ spre s spost hspre hsx
  · intro hs
    simp only [bookingsCancel, hfind]
    exact updateFirst_of_find?_none _ _ _ hs

/-- Witness for C9: on the database store where `u1` holds slot 1, `u1`
cancels slot 1. -/
theorem cancel_active_booking_witness :
    (∃ b ∈ slot1HeldByU1.bookingHistory,
      b.userId = some "u1" ∧ b.slot = 1 ∧ b.status = Status.active) ∧
    ∃ (b : Booking) (pre post : List Booking),
      slot1HeldByU1.bookingHistory = pre ++ b :: post ∧
      (b.userId = some "u1" ∧ b.slot = 1 ∧ b.status = Status.active) ∧
      (∀ y ∈ pre, ¬ (y.userId = some "u1" ∧ y.slot = 1 ∧ y.status = Status.active)) ∧
      (bookingsCancel slot1HeldByU1 "u1" 1).1
        = Response.success "Booking cancelled successfully" none ∧
      (bookingsCancel slot1HeldByU1 "u1" 1).2.bookingHistory
        = pre ++ { b with status := Status.cancelled } :: post ∧
      (bookingsCancel slot1HeldByU1 "u1" 1).2.users = slot1HeldByU1.users ∧
      (∀ s : Slot, slot1HeldByU1.slots.find? (fun t => t.id == 1) = some s →
        ∃ spre spost : List Slot,
          slot1HeldByU1.slots = spre ++ s :: spost ∧ (∀ y ∈ spre, y.id ≠ 1) ∧
          (bookingsCancel slot1HeldByU1 "u1" 1).2.slots
            = spre ++ Slot.mk s.id false none none none :: spost) ∧
      (slot1HeldByU1.slots.find? (fun t => t.id == 1) = none →
        (bookingsCancel slot1HeldByU1 "u1" 1).2.slots = slot1HeldByU1.slots) :=
  ⟨by decide, cancel_active_booking slot1HeldByU1 "u1" 1 (by decide)⟩

/-- Claim C10 (cancel must not free a slot held by another booking, violated
by the code): on the database server, `u1` books slot 1, the hold lapses under
the cleanup timer (the booking stays `active`), and `u2` books slot 1.  In
that reachable store slot 1 is held by the booking `b2` of `u2`, the cancel
lookup for `u1` finds the lapsed booking `b1`, and `POST /api/bookings/cancel`
by `u1` clears slot 1 while `b2` is still the active booking for it.
`POST /api/slots/cancel/1`, which looks at no booking and no caller, clears
the slot as well. -/
theorem cancel_frees_slot_held_by_other_booking :
    ReachableDb [] slot1TakenOver ∧
    slotOf slot1TakenOver 1
      = some { id := 1, booked := true, endTime := some 7200002,
               registrationNumber := some "N/A", userId := some "u2" } ∧
    (slot1TakenOver.bookingHistory.find? (isActiveBookingOf "u1" 1)).map (fun b => b._id)
      = some "b1" ∧
    (bookingsCancel slot1TakenOver "u1" 1).1
      = Response.success "Booking cancelled successfully" none ∧
    slotOf (bookingsCancel slot1TakenOver "u1" 1).2 1
      = some { id := 1, booked := false, endTime := none,
               registrationNumber := none, userId := none } ∧
    (activeFor (bookingsCancel slot1TakenOver "u1" 1).2 1).map (fun b => (b._id, b.userId))
      = [("b2", some "u2")] ∧
    slotOf (slotsCancel slot1TakenOver 1).2 1
      = some { id := 1, booked := false, endTime := none,
               registrationNumber := none, userId := none } := by
  refine ⟨⟨_, rfl⟩, by decide, by decide, by decide, by decide, by decide, by decide⟩

/-! ## Book, then cancel -/

/-- Claim C11 (book then cancel, violated by the code): on the in-memory
server, after `u1` books free slot 3 for two hours through
`POST /api/payment`, the immediate `POST /api/bookings/cancel` of slot 3 by
`u1` is declined with 404 "Booking not found"; slot 3 stays booked and the new
booking stays `active`.  The booking was stored without a user id, so the
cancel lookup by `req.userId` does not find it. -/
theorem cancel_after_in_memory_book_not_found :
    Reachable slot3Booked ∧
    slot3Booked.bookingHistory.map (fun b => (b._id, b.userId, b.slot, b.hours, b.status))
      = [("booking_0", none, 3, 2, Status.active)] ∧
    bookingsCancel slot3Booked "u1" 3
      = (Response.failure 404 "Booking not found", slot3Booked) ∧
    (slotOf (bookingsCancel slot3Booked "u1" 3).2 3).map (fun s => s.booked) = some true := by
  refine ⟨⟨_, rfl⟩, by decide, by decide, by decide⟩

/-! ## The expiry cleanup timer -/

theorem isExpired_iff (now : Int) (s : Slot) :
    s.isExpired now = true ↔ (s.booked = true ∧ ∃ t, s.endTime = some t ∧ t < now) := by
  cases s with
  | mk id booked endTime registrationNumber userId =>
    cases endTime <;> simp [Slot.isExpired]

theorem isExpired_clear (now : Int) (s : Slot) : s.clear.isExpired now = false := by
  simp [Slot.isExpired, Slot.clear]

/-- Claim C12: one run of the cleanup timer frees exactly the expired slots.
A slot at any position that is booked with an end time before `now` ends with
`booked = false` and `endTime`, `registrationNumber`, `userId` null (same id);
every other slot (free, or booked with no earlier end time) is unchanged at
its position; the number of slots, the users and the booking history are
unchanged. -/
theorem cleanup_frees_exactly_expired (st : Store) (now : Int) (i : Nat) (s : Slot)
    (hs : st.slots[i]? = some s) :
    (cleanupExpired st now).slots.length = st.slots.length ∧
    (s.booked = true → ∀ t, s.endTime = some t → t < now →
      (cleanupExpired st now).slots[i]? = some (Slot.mk s.id false none none none)) ∧
    (¬ (s.booked = true ∧ ∃ t, s.endTime = some t ∧ t < now) →
      (cleanupExpired st now).slots[i]? = some s) ∧
    (cleanupExpired st now).users = st.users ∧
    (cleanupExpired st now).bookingHistory = st.bookingHistory := by
  have hget : (cleanupExpired st now).slots[i]?
      = some (if s.isExpired now then s.clear else s) := by
    simp [cleanupExpired, List.getElem?_map, hs]
  refine ⟨by simp [cleanupExpired], ?_, ?_, rfl, rfl⟩
  · intro hb t ht hlt
    have hexp : s.isExpired now = true := (isExpired_iff now s).mpr ⟨hb, t, ht, hlt⟩
    rw [hget, hexp]
    rfl
  · intro hno
    have hexp : s.isExpired now = false := by
      cases h : s.isExpired now
      · rfl
      · exact absurd ((isExpired_iff now s).mp h) hno
    rw [hget, hexp]
    rfl

/-- Witness for C12: slot 1 (position 0) of the store with slot 1 booked until
3 600 000, at the tick of time 3 600 001. -/
theorem cleanup_frees_exactly_expired_witness :
    slot1Booked.slots[0]? = some (Slot.mk 1 true (some 3600000) (some "N/A") none) ∧
    (cleanupExpired slot1Booked 3600001).slots[0]? = some (Slot.mk 1 false none none none) :=
  ⟨by decide,
    (cleanup_frees_exactly_expired slot1Booked 3600001 0
      (Slot.mk 1 true (some 3600000) (some "N/A") none) (by decide)).2.1 rfl 3600000 rfl
      (by decide)⟩

/-- Claim C13 (lapsed booking becomes `expired`, violated by the code): the
cleanup timer never writes the booking history.  After slot 1 is booked until
3 600 000 and the timer runs at 3 600 001, slot 1 is free and its booking,
whose end time is before the tick, still has status `active`, not `expired`. -/
theorem lapsed_booking_stays_active :
    (∀ (st : Store) (now : Int), (cleanupExpired st now).bookingHistory = st.bookingHistory) ∧
    (slotOf (run false memoryDB bookThenExpire) 1).map (fun s => s.booked) = some false ∧
    (run false memoryDB bookThenExpire).bookingHistory.map
        (fun b => (b.slot, b.endTime, b.status))
      = [(1, 3600000, Status.active)] := by
  refine ⟨fun _ _ => rfl, by decide, by decide⟩

/-- Claim C14: the cleanup timer is idempotent.  Running it twice at the same
time gives the same store as running it once, and on a store with no expired
slot it returns the store unchanged. -/
theorem cleanup_idempotent (st : Store) (now : Int) :
    cleanupExpired (cleanupExpired st now) now = cleanupExpired st now ∧
    ((∀ s ∈ st.slots, ¬ (s.booked = true ∧ ∃ t, s.endTime = some t ∧ t < now)) →
      cleanupExpired st now = st) := by
  constructor
  · have hfun : ∀ s : Slot,
        (if (if s.isExpired now then s.clear else s).isExpired now
          then (if s.isExpired now then s.clear else s).clear
          else (if s.isExpired now then s.clear else s))
        = (if s.isExpired now then s.clear else s) := by
      intro s
      cases h : s.isExpired now
      · simp [h]
      · simp [isExpired_clear]
    simp only [cleanupExpired, List.map_map]
    congr 1
    apply List.map_congr_left
    intro s _
    exact hfun s
  · intro hno
    have hmap : (st.slots.map fun s => if s.isExpired now then s.clear else s) = st.slots := by
      conv_rhs => rw [← List.map_id st.slots]
      apply List.map_congr_left
      intro s hs
      have hexp : s.isExpired now = false := by
        cases h : s.isExpired now
        · rfl
        · exact absurd ((isExpired_iff now s).mp h) (hno s hs)
      simp [hexp]
    cases st with
    | mk users slots bookingHistory =>
      simp only [cleanupExpired] at hmap ⊢
      rw [hmap]

/-- Witness for C14: the initial store has no expired slot, so a tick leaves
it unchanged. -/
theorem cleanup_idempotent_witness :
    (∀ s ∈ memoryDB.slots, ¬ (s.booked = true ∧ ∃ t, s.endTime = some t ∧ t < (5 : Int))) ∧
    cleanupExpired memoryDB 5 = memoryDB :=
  ⟨by decide, (cleanup_idempotent memoryDB 5).2 (by decide)⟩

/-! ## Free slots carry no occupant data -/

theorem mem_updateFirst {α : Type} (p : α → Bool) (f : α → α) (l : List α) (x : α)
    (hx : x ∈ updateFirst p f l) : x ∈ l ∨ ∃ y ∈ l, x = f y := by
  induction l with
  | nil => simp [updateFirst] at hx
  | cons a as ih =>
    cases ha : p a
    · have hx2 : x = a ∨ x ∈ updateFirst p f as := by
        simpa [updateFirst, ha] using hx
      rcases hx2 with h1 | h1
      · exact Or.inl (by rw [h1]; exact List.mem_cons_self _ _)
      · rcases ih h1 with h | ⟨y, hy, hxy⟩
        · exact Or.inl (List.mem_cons_of_mem _ h)
        · exact Or.inr ⟨y, List.mem_cons_of_mem _ hy, hxy⟩
    · have hx2 : x = f a ∨ x ∈ as := by
        simpa [updateFirst, ha] using hx
      rcases hx2 with h1 | h1
      · exact Or.inr ⟨a, List.mem_cons_self _ _, h1⟩
      · exact Or.inl (List.mem_cons_of_mem _ h1)

theorem clear_clear (s : Slot) : s.clear.clear = s.clear := rfl

theorem freeSlotsClean_updateFirst_clear (st : Store) (p : Slot → Bool)
    (h : FreeSlotsClean st) :
    ∀ s ∈ updateFirst p Slot.clear st.slots, s.booked = false → s.clear = s := by
  intro s hs hb
  rcases mem_updateFirst p Slot.clear st.slots s hs with hmem | ⟨y, _, hy⟩
  · exact h s hmem hb
  · rw [hy]
    rfl

theorem freeSlotsClean_payment (dbConnected : Bool) (st : Store) (userId : String)
    (body : PaymentBody) (now : Int) (oid : String) (h : FreeSlotsClean st) :
    FreeSlotsClean (payment dbConnected st userId body now oid).2 := by
  unfold payment
  split
  · exact h
  · split
    · exact h
    · cases dbConnected
      · intro s hs hb
        rcases mem_updateFirst _ _ st.slots s hs with hmem | ⟨y, _, hy⟩
        · exact h s hmem hb
        · rw [hy] at hb
          simp [Slot.occupy] at hb
      · dsimp only
        simp only [if_true]
        split
        · exact h
        · intro s hs hb
          rcases mem_updateFirst _ _ st.slots s hs with hmem | ⟨y, _, hy⟩
          · exact h s hmem hb
          · rw [hy] at hb
            simp [Slot.occupy] at hb

theorem freeSlotsClean_bookingsCancel (st : Store) (u : String) (n : Nat)
    (h : FreeSlotsClean st) : FreeSlotsClean (bookingsCancel st u n).2 := by
  unfold bookingsCancel
  split
  · exact h
  · exact freeSlotsClean_updateFirst_clear st _ h

theorem freeSlotsClean_adminReleaseSlot (st : Store) (n : Nat)
    (h : FreeSlotsClean st) : FreeSlotsClean (adminReleaseSlot st n).2 := by
  unfold adminReleaseSlot
  split
  · exact h
  · exact freeSlotsClean_updateFirst_clear st _ h

theorem freeSlotsClean_approveRefund (st : Store) (refundId : String) (amount : Int)
    (userName : String) (now : Int) (h : FreeSlotsClean st) :
    FreeSlotsClean (approveRefund st refundId amount userName now).2 := by
  unfold approveRefund
  split
  · exact h
  · exact h

theorem freeSlotsClean_cleanupExpired (st : Store) (now : Int) (h : FreeSlotsClean st) :
    FreeSlotsClean (cleanupExpired st now) := by
  intro s hs hb
  simp only [cleanupExpired, List.mem_map] at hs
  obtain ⟨y, hy, hys⟩ := hs
  by_cases hexp : y.isExpired now = true
  · simp only [hexp, if_true] at hys
    rw [← hys]
    rfl
  · simp only [hexp] at hys
    rw [← hys] at hb ⊢
    exact h y hy hb

theorem freeSlotsClean_step (dbConnected : Bool) (st : Store) (op : Op)
    (h : FreeSlotsClean st) : FreeSlotsClean (step dbConnected st op) := by
  cases op with
  | book userId body now oid => exact freeSlotsClean_payment dbConnected st userId body now oid h
  | cancel userId slotNumber => exact freeSlotsClean_bookingsCancel st userId slotNumber h
  | release slotId => exact freeSlotsClean_adminReleaseSlot st slotId h
  | approve refundId amount userName now =>
    cases dbConnected
    · exact freeSlotsClean_approveRefund st refundId amount userName now h
    · exact h
  | tick now => exact freeSlotsClean_cleanupExpired st now h

theorem freeSlotsClean_run (dbConnected : Bool) (ops : List Op) :
    ∀ st : Store, FreeSlotsClean st → FreeSlotsClean (run dbConnected st ops) := by
  induction ops with
  | nil => intro st h; exact h
  | cons op ops ih =>
    intro st h
    exact ih (step dbConnected st op) (freeSlotsClean_step dbConnected st op h)

theorem freeSlotsClean_initialSlots (users : List User) (history : List Booking) :
    FreeSlotsClean { users := users, slots := initialSlots, bookingHistory := history } := by
  intro s hs _
  simp only [initialSlots, List.mem_map] at hs
  obtain ⟨i, _, hi⟩ := hs
  rw [← hi]
  rfl

theorem freeSlotsClean_of_reachable (st : Store)
    (h : Reachable st ∨ ∃ users, ReachableDb users st) : FreeSlotsClean st := by
  rcases h with ⟨ops, hops⟩ | ⟨users, ops, hops⟩
  · rw [hops]
    exact freeSlotsClean_run false ops memoryDB (freeSlotsClean_initialSlots [] [])
  · rw [hops]
    exact freeSlotsClean_run true ops _ (freeSlotsClean_initialSlots users [])

/-! ## Admin release -/

theorem adminReleaseSlot_of_found (st : Store) (n : Nat) (slot : Slot)
    (hfind : st.slots.find? (fun s => s.id == n) = some slot) :
    ∃ pre post : List Slot,
      st.slots = pre ++ slot :: post ∧ (∀ y ∈ pre, (y.id == n) = false) ∧
      (slot.id == n) = true ∧
      adminReleaseSlot st n
        = (Response.success "Slot released" none,
            { users := st.users, slots := pre ++ slot.clear :: post,
              bookingHistory :=
                if truthy slot.userId then
                  updateFirst
                    (fun b => b.userId == slot.userId && b.slot == n
                      && b.status == Status.active)
                    (fun b => { b with status := Status.released }) st.bookingHistory
                else st.bookingHistory }) := by
  obtain ⟨pre, post, hl, hpre, hx⟩ := find?_split _ _ _ hfind
  refine ⟨pre, post, hl, hpre, hx, ?_⟩
  have hup : updateFirst (fun s => s.id == n) Slot.clear st.slots = pre ++ slot.clear :: post := by
    rw [hl]
    exact updateFirst_append_cons _ _ pre slot post hpre hx
  simp only [adminReleaseSlot, hfind, hup]

theorem adminReleaseSlot_of_clean (st : Store) (n : Nat) (slot : Slot)
    (hfind : st.slots.find? (fun s => s.id == n) = some slot) (hclean : slot.clear = slot) :
    adminReleaseSlot st n = (Response.success "Slot released" none, st) := by
  obtain ⟨pre, post, hl, -, -, hrel⟩ := adminReleaseSlot_of_found st n slot hfind
  have huid : slot.userId = none := by
    rw [← hclean]
    rfl
  rw [hrel, hclean, huid]
  cases st with
  | mk users slots bookingHistory =>
    simp only at hl
    simp [truthy, hl]

/-- Claim C15: for every store and every slot number `n` whose slot exists,
`POST /api/admin/release-slot/n` answers success and leaves the slot found for
`n` free (`booked = false`; `endTime`, `registrationNumber`, `userId` null),
every other slot and the users unchanged, whether or not a booking matches;
when no booking matches the lookup (truthy `slot.userId`, same `userId`,
`slot = n`, status `active`), the booking history is unchanged. -/
theorem admin_release_frees_slot (st : Store) (n : Nat) (slot : Slot)
    (hfind : st.slots.find? (fun s => s.id == n) = some slot) :
    (adminReleaseSlot st n).1 = Response.success "Slot released" none ∧
    slotOf (adminReleaseSlot st n).2 n = some (Slot.mk n false none none none) ∧
    (∃ pre post : List Slot,
      st.slots = pre ++ slot :: post ∧ (∀ y ∈ pre, y.id ≠ n) ∧
      (adminReleaseSlot st n).2.slots = pre ++ Slot.mk n false none none none :: post) ∧
    (adminReleaseSlot st n).2.users = st.users ∧
    ((∀ b ∈ st.bookingHistory,
        ¬ (truthy slot.userId = true ∧ b.userId = slot.userId ∧ b.slot = n
            ∧ b.status = Status.active)) →
      (adminReleaseSlot st n).2.bookingHistory = st.bookingHistory) := by
  obtain ⟨pre, post, hl, hpre, hx, hrel⟩ := adminReleaseSlot_of_found st n slot hfind
  have hid : slot.id = n := by simpa using hx
  have hclear : slot.clear = Slot.mk n false none none none := by
    rw [← hid]
    rfl
  rw [hrel, hclear]
  refine ⟨rfl, ?_, ⟨pre, post, hl, ?_, rfl⟩, rfl, ?_⟩
  · simp only [slotOf]
    exact find?_append_cons_self _ pre post _ hpre (by simp)
  · intro y hy hyn
    have := hpre y hy
    simp [hyn] at this
  · intro hno
    by_cases ht : truthy slot.userId = true
    · simp only [ht, if_true]
      apply updateFirst_of_find?_none
      rw [List.find?_eq_none]
      intro b hb hmatch
      apply hno b hb
      simp only [Bool.and_eq_true, beq_iff_eq] at hmatch
      exact ⟨ht, hmatch.1.1, hmatch.1.2, hmatch.2⟩
    · simp [ht]

/-- Witness for C15: releasing booked slot 1 of the in-memory store, whose
`userId` is null, frees it and leaves the booking history as it is. -/
theorem admin_release_frees_slot_witness :
    slot1Booked.slots.find? (fun s => s.id == 1)
      = some (Slot.mk 1 true (some 3600000) (some "N/A") none) ∧
    slotOf (adminReleaseSlot slot1Booked 1).2 1 = some (Slot.mk 1 false none none none) ∧
    (adminReleaseSlot slot1Booked 1).2.bookingHistory = slot1Booked.bookingHistory :=
  ⟨by decide,
    (admin_release_frees_slot slot1Booked 1 (Slot.mk 1 true (some 3600000) (some "N/A") none)
      (by decide)).2.1,
    (admin_release_frees_slot slot1Booked 1 (Slot.mk 1 true (some 3600000) (some "N/A") none)
      (by decide)).2.2.2.2 (by decide)⟩

/-- Claim C16 (occupant booking becomes `released`, violated by the code): on
the in-memory server, after slot 1 is booked through `POST /api/payment`, slot
1 is booked and one `active` booking references it; admin release of slot 1
answers success and frees the slot, and that booking still has status
`active`.  The slot was stored without a user id, so the guard
`if (slot.userId)` skips the booking update. -/
theorem admin_release_leaves_booking_active :
    Reachable slot1Booked ∧
    slotOf slot1Booked 1 = some (Slot.mk 1 true (some 3600000) (some "N/A") none) ∧
    (activeFor slot1Booked 1).map (fun b => b._id) = ["booking_0"] ∧
    (adminReleaseSlot slot1Booked 1).1 = Response.success "Slot released" none ∧
    slotOf (adminReleaseSlot slot1Booked 1).2 1 = some (Slot.mk 1 false none none none) ∧
    (adminReleaseSlot slot1Booked 1).2.bookingHistory.map (fun b => (b._id, b.status))
      = [("booking_0", Status.active)] := by
  refine ⟨⟨_, rfl⟩, by decide, by decide, by decide, by decide, by decide⟩

/-- Claim C17: admin release is idempotent.  For every store and slot number,
releasing twice gives the same response and store as releasing once; releasing
a slot that is already free (no occupant data) returns the store unchanged, and
on every reachable store (in-memory or database) this covers every slot with
`booked = false`. -/
theorem admin_release_idempotent (st : Store) (n : Nat) :
    adminReleaseSlot (adminReleaseSlot st n).2 n = adminReleaseSlot st n ∧
    (∀ slot : Slot, slotOf st n = some slot → slot.clear = slot →
      adminReleaseSlot st n = (Response.success "Slot released" none, st)) ∧
    ((Reachable st ∨ ∃ users, ReachableDb users st) →
      ∀ slot : Slot, slotOf st n = some slot → slot.booked = false →
        adminReleaseSlot st n = (Response.success "Slot released" none, st)) := by
  refine ⟨?_, fun slot hs hc => adminReleaseSlot_of_clean st n slot hs hc, ?_⟩
  · cases hfind : st.slots.find? (fun s => s.id == n) with
    | none => simp [adminReleaseSlot, hfind]
    | some slot =>
      obtain ⟨pre, post, hl, hpre, hx, hrel⟩ := adminReleaseSlot_of_found st n slot hfind
      have hfind2 : (adminReleaseSlot st n).2.slots.find? (fun s => s.id == n)
          = some slot.clear := by
        rw [hrel]
        exact find?_append_cons_self _ pre post _ hpre hx
      have h2 := adminReleaseSlot_of_clean (adminReleaseSlot st n).2 n slot.clear hfind2 rfl
      rw [h2, hrel]
  · intro hreach slot hs hb
    have hmem : slot ∈ st.slots := List.mem_of_find?_eq_some hs
    exact adminReleaseSlot_of_clean st n slot hs (freeSlotsClean_of_reachable st hreach slot hmem hb)

/-- Witness for C17: free slot 1 of the initial store. -/
theorem admin_release_idempotent_witness :
    Reachable memoryDB ∧
    slotOf memoryDB 1 = some (Slot.mk 1 false none none none) ∧
    adminReleaseSlot memoryDB 1 = (Response.success "Slot released" none, memoryDB) :=
  ⟨⟨[], rfl⟩, by decide,
    (admin_release_idempotent memoryDB 1).2.2 (Or.inl ⟨[], rfl⟩)
      (Slot.mk 1 false none none none) (by decide) rfl⟩

/-! ## Refund approval -/

theorem approveRefund_of_found (st : Store) (refundId : String) (amount : Int)
    (userName : String) (now : Int) (b : Booking)
    (hfind : st.bookingHistory.find? (fun c => c._id == refundId) = some b) :
    ∃ pre post : List Booking,
      st.bookingHistory = pre ++ b :: post ∧ (∀ y ∈ pre, (y._id == refundId) = false) ∧
      (b._id == refundId) = true ∧
      approveRefund st refundId amount userName now
        = (Response.success ("Refund of ₹" ++ toString amount ++ " approved for " ++ userName)
              none,
            { users := st.users, slots := st.slots,
              bookingHistory :=
                pre ++ { b with refundStatus := some "approved", refundAmount := some amount,
                                refundApprovedAt := some now } :: post }) := by
  obtain ⟨pre, post, hl, hpre, hx⟩ := find?_split _ _ _ hfind
  refine ⟨pre, post, hl, hpre, hx, ?_⟩
  have hup : updateFirst (fun c => c._id == refundId)
      (fun c => { c with refundStatus := some "approved", refundAmount := some amount,
                         refundApprovedAt := some now }) st.bookingHistory
      = pre ++ { b with refundStatus := some "approved", refundAmount := some amount,
                        refundApprovedAt := some now } :: post := by
    rw [hl]
    exact updateFirst_append_cons _ _ pre b post hpre hx
  simp only [approveRefund, hfind, hup]

theorem find?_id_of_exists (history : List Booking) (refundId : String)
    (hex : ∃ b ∈ history, b._id = refundId) :
    ∃ b, history.find? (fun c => c._id == refundId) = some b := by
  obtain ⟨b0, hb0, hid⟩ := hex
  have hsome : (history.find? (fun c => c._id == refundId)).isSome = true := by
    rw [List.find?_isSome]
    exact ⟨b0, hb0, by simp [hid]⟩
  exact Option.isSome_iff_exists.mp hsome

/-- Claim C18: when a booking with the given id exists,
`POST /api/admin/approve-refund` succeeds and the booking it identifies (the
first with that id) afterwards has `refundStatus = "approved"` and
`refundAmount = amount`; when no booking has that id, the request is declined
with 404 and the store is unchanged. -/
theorem approve_refund_result (st : Store) (refundId : String) (amount : Int)
    (userName : String) (now : Int) :
    ((∃ b ∈ st.bookingHistory, b._id = refundId) →
      (approveRefund st refundId amount userName now).1
        = Response.success ("Refund of ₹" ++ toString amount ++ " approved for " ++ userName)
            none ∧
      ∃ (pre post : List Booking) (b b' : Booking),
        st.bookingHistory = pre ++ b :: post ∧ b._id = refundId ∧
        (∀ y ∈ pre, y._id ≠ refundId) ∧
        (approveRefund st refundId amount userName now).2.bookingHistory = pre ++ b' :: post ∧
        b'._id = refundId ∧ b'.refundStatus = some "approved" ∧
        b'.refundAmount = some amount) ∧
    ((∀ b ∈ st.bookingHistory, b._id ≠ refundId) →
      approveRefund st refundId amount userName now
        = (Response.failure 404 "Refund not found", st)) := by
  constructor
  · intro hex
    obtain ⟨b, hfind⟩ := find?_id_of_exists st.bookingHistory refundId hex
    obtain ⟨pre, post, hl, hpre, hx, happ⟩ :=
      approveRefund_of_found st refundId amount userName now b hfind
    have hid : b._id = refundId := by simpa using hx
    rw [happ]
    refine ⟨rfl, pre, post, b, _, hl, hid, ?_, rfl, hid, rfl, rfl⟩
    intro y hy hyid
    have := hpre y hy
    simp [hyid] at this
  · intro hno
    have hfind : st.bookingHistory.find? (fun c => c._id == refundId) = none := by
      rw [List.find?_eq_none]
      intro b hb hmatch
      exact hno b hb (by simpa using hmatch)
    simp [approveRefund, hfind]

/-- Witness for C18: approving a refund of 50 for `booking_0`, and for an id
no booking has. -/
theorem approve_refund_result_witness :
    (∃ b ∈ slot1Booked.bookingHistory, b._id = "booking_0") ∧
    (approveRefund slot1Booked "booking_0" 50 "Asha" 9).1
      = Response.success ("Refund of ₹" ++ toString (50 : Int) ++ " approved for " ++ "Asha")
          none ∧
    (∀ b ∈ slot1Booked.bookingHistory, b._id ≠ "booking_7") ∧
    approveRefund slot1Booked "booking_7" 50 "Asha" 9
      = (Response.failure 404 "Refund not found", slot1Booked) :=
  ⟨by decide,
    ((approve_refund_result slot1Booked "booking_0" 50 "Asha" 9).1 (by decide)).1,
    by decide,
    (approve_refund_result slot1Booked "booking_7" 50 "Asha" 9).2 (by decide)⟩

/-- Claim C19: approving a refund is a pure ledger mutation.  For every store
and every input it changes no slot and no user, and in the booking history it
changes nothing except `refundStatus`, `refundAmount` and `refundApprovedAt` of
the one identified booking: every other booking is unchanged, and every
booking keeps its id, user id, slot, registration number, hours, amount,
payment status, times and status. -/
theorem approve_refund_frame (st : Store) (refundId : String) (amount : Int)
    (userName : String) (now : Int) :
    (approveRefund st refundId amount userName now).2.slots = st.slots ∧
    (approveRefund st refundId amount userName now).2.users = st.users ∧
    ((approveRefund st refundId amount userName now).2.bookingHistory = st.bookingHistory ∨
      ∃ (pre post : List Booking) (b : Booking),
        st.bookingHistory = pre ++ b :: post ∧ b._id = refundId ∧
        (approveRefund st refundId amount userName now).2.bookingHistory
          = pre ++ { b with refundStatus := some "approved", refundAmount := some amount,
                            refundApprovedAt := some now } :: post) ∧
    (approveRefund st refundId amount userName now).2.bookingHistory.map
        (fun b => (b._id, b.userId, b.slot, b.registrationNumber, b.hours, b.amount,
          b.paymentStatus, b.bookedTime, b.endTime, b.status))
      = st.bookingHistory.map
        (fun b => (b._id, b.userId, b.slot, b.registrationNumber, b.hours, b.amount,
          b.paymentStatus, b.bookedTime, b.endTime, b.status)) := by
  cases hfind : st.bookingHistory.find? (fun c => c._id == refundId) with
  | none =>
    have happ : approveRefund st refundId amount userName now
        = (Response.failure 404 "Refund not found", st) := by
      simp [approveRefund, hfind]
    rw [happ]
    exact ⟨rfl, rfl, Or.inl rfl, rfl⟩
  | some b =>
    obtain ⟨pre, post, hl, -, hx, happ⟩ :=
      approveRefund_of_found st refundId amount userName now b hfind
    have hid : b._id = refundId := by simpa using hx
    rw [happ]
    refine ⟨rfl, rfl, Or.inr ⟨pre, post, b, hl, hid, rfl⟩, ?_⟩
    simp [hl]

/-- Claim C20: re-approving never errors and overwrites.  For every store with
a booking of the given id, a second approval (amount `a2`) after a first
(amount `a1`) succeeds; it gives the same response and store as the single
approval of `a2` made at the same time, and the same store up to the
`refundApprovedAt` timestamps as the single approval of `a2` made at any
time. -/
theorem reapprove_overwrites (st : Store) (refundId : String) (a1 a2 : Int)
    (u1 u2 : String) (t1 t2 : Int) (hex : ∃ b ∈ st.bookingHistory, b._id = refundId) :
    (approveRefund (approveRefund st refundId a1 u1 t1).2 refundId a2 u2 t2).1
      = Response.success ("Refund of ₹" ++ toString a2 ++ " approved for " ++ u2) none ∧
    approveRefund (approveRefund st refundId a1 u1 t1).2 refundId a2 u2 t2
      = approveRefund st refundId a2 u2 t2 ∧
    ∀ t3 : Int,
      (approveRefund (approveRefund st refundId a1 u1 t1).2 refundId a2 u2 t2).2.withoutApprovedAt
        = (approveRefund st refundId a2 u2 t3).2.withoutApprovedAt := by
  obtain ⟨b, hfind⟩ := find?_id_of_exists st.bookingHistory refundId hex
  obtain ⟨pre, post, hl, hpre, hx, happ1⟩ :=
    approveRefund_of_found st refundId a1 u1 t1 b hfind
  have hfind1 : (approveRefund st refundId a1 u1 t1).2.bookingHistory.find?
      (fun c => c._id == refundId)
      = some { b with refundStatus := some "approved", refundAmount := some a1,
                      refundApprovedAt := some t1 } := by
    rw [happ1]
    exact find?_append_cons_self _ pre post _ hpre hx
  have hsecond : approveRefund (approveRefund st refundId a1 u1 t1).2 refundId a2 u2 t2
      = (Response.success ("Refund of ₹" ++ toString a2 ++ " approved for " ++ u2) none,
          { users := st.users, slots := st.slots,
            bookingHistory :=
              pre ++ { b with refundStatus := some "approved", refundAmount := some a2,
                              refundApprovedAt := some t2 } :: post }) := by
    have hf := hfind1
    rw [happ1] at hf
    dsimp only at hf
    rw [happ1]
    simp only [approveRefund, hf]
    rw [updateFirst_append_cons _ _ pre _ post hpre]
    exact hx
  have hsingle : ∀ t : Int, approveRefund st refundId a2 u2 t
      = (Response.success ("Refund of ₹" ++ toString a2 ++ " approved for " ++ u2) none,
          { users := st.users, slots := st.slots,
            bookingHistory :=
              pre ++ { b with refundStatus := some "approved", refundAmount := some a2,
                              refundApprovedAt := some t } :: post }) := by
    intro t
    simp only [approveRefund, hfind]
    rw [hl, updateFirst_append_cons _ _ pre _ post hpre hx]
  refine ⟨by rw [hsecond], by rw [hsecond, hsingle t2], ?_⟩
  intro t3
  rw [hsecond, hsingle t3]
  simp [Store.withoutApprovedAt, Booking.withoutApprovedAt]

/-- Witness for C20: `booking_0` is approved for 50 and then for 20. -/
theorem reapprove_overwrites_witness :
    (∃ b ∈ slot1Booked.bookingHistory, b._id = "booking_0") ∧
    approveRefund (approveRefund slot1Booked "booking_0" 50 "Asha" 9).2 "booking_0" 20 "Asha" 12
      = approveRefund slot1Booked "booking_0" 20 "Asha" 12 :=
  ⟨by decide,
    (reapprove_overwrites slot1Booked "booking_0" 50 20 "Asha" "Asha" 9 12 (by decide)).2.1⟩

/-! ## Refund lifecycle -/

/-- Claim C21 as stated fails: on the in-memory server, after slot 1 is booked
and the refund of `booking_0` is approved, the store is reachable and holds a
booking with `refundStatus = "approved"` whose status is `active`, not
`cancelled`. -/
theorem approved_refund_on_active_booking :
    Reachable (run false memoryDB
      [.book "u1" oneHourSlot1 0 "", .approve "booking_0" 50 "Asha" 9]) ∧
    (run false memoryDB
      [.book "u1" oneHourSlot1 0 "", .approve "booking_0" 50 "Asha" 9]).bookingHistory.map
        (fun b => (b._id, b.refundStatus, b.status))
      = [("booking_0", some "approved", Status.active)] := by
  refine ⟨⟨_, rfl⟩, by decide⟩

/-- Claim C21, amended: approval does not depend on the booking's status.  For
every store and every id some booking has, `POST /api/admin/approve-refund`
succeeds, sets `refundStatus = "approved"` on the booking it identifies and
leaves that booking's status as it was, whether `active`, `cancelled`,
`released` or `expired`. -/
theorem approve_refund_keeps_status (st : Store) (refundId : String) (amount : Int)
    (userName : String) (now : Int) (hex : ∃ b ∈ st.bookingHistory, b._id = refundId) :
    (approveRefund st refundId amount userName now).1
      = Response.success ("Refund of ₹" ++ toString amount ++ " approved for " ++ userName)
          none ∧
    ∃ (pre post : List Booking) (b b' : Booking),
      st.bookingHistory = pre ++ b :: post ∧ b._id = refundId ∧
      (∀ y ∈ pre, y._id ≠ refundId) ∧
      (approveRefund st refundId amount userName now).2.bookingHistory = pre ++ b' :: post ∧
      b'.refundStatus = some "approved" ∧ b'.status = b.status := by
  obtain ⟨b, hfind⟩ := find?_id_of_exists st.bookingHistory refundId hex
  obtain ⟨pre, post, hl, hpre, hx, happ⟩ :=
    approveRefund_of_found st refundId amount userName now b hfind
  have hid : b._id = refundId := by simpa using hx
  rw [happ]
  refine ⟨rfl, pre, post, b, _, hl, hid, ?_, rfl, rfl, rfl⟩
  intro y hy hyid
  have := hpre y hy
  simp [hyid] at this

/-- Witness for the amended C21: the active booking `booking_0`. -/
theorem approve_refund_keeps_status_witness :
    (∃ b ∈ slot1Booked.bookingHistory, b._id = "booking_0") ∧
    ∃ (pre post : List Booking) (b b' : Booking),
      slot1Booked.bookingHistory = pre ++ b :: post ∧ b._id = "booking_0" ∧
      (∀ y ∈ pre, y._id ≠ "booking_0") ∧
      (approveRefund slot1Booked "booking_0" 50 "Asha" 9).2.bookingHistory
        = pre ++ b' :: post ∧
      b'.refundStatus = some "approved" ∧ b'.status = b.status :=
  ⟨by decide, (approve_refund_keeps_status slot1Booked "booking_0" 50 "Asha" 9 (by decide)).2⟩

/-! ## Revenue -/

theorem orZero_eq (x : Int) : orZero x = x := by
  unfold orZero
  split
  · next h => exact h.symm
  · rfl

theorem foldl_revenue (l : List Booking) :
    ∀ acc : Int, l.foldl (fun sum b => sum + orZero b.amount) acc
      = acc + (l.map fun b => b.amount).sum := by
  induction l with
  | nil => intro acc; simp
  | cons b bs ih =>
    intro acc
    simp only [List.foldl_cons, List.map_cons, List.sum_cons]
    rw [ih, orZero_eq]
    ring

theorem map_updateFirst_of_preserve {α β : Type} (p : α → Bool) (f : α → α) (g : α → β)
    (hg : ∀ x, g (f x) = g x) (l : List α) : (updateFirst p f l).map g = l.map g := by
  induction l with
  | nil => rfl
  | cons a as ih =>
    cases ha : p a
    · simp [updateFirst, ha, ih]
    · simp [updateFirst, ha, hg]

/-- Claim C22: the `totalRevenue` of `GET /api/admin/stats` is the sum of
`amount` over exactly the bookings with status `active` (cancelled, released
and expired bookings are filtered out before the sum), and cancel and admin
release leave the amount of every booking unchanged. -/
theorem revenue_is_sum_over_active (st : Store) (u : String) (n : Nat) :
    (adminStats st).totalRevenue
      = ((st.bookingHistory.filter fun b => b.status == Status.active).map
          fun b => b.amount).sum ∧
    (bookingsCancel st u n).2.bookingHistory.map (fun b => b.amount)
      = st.bookingHistory.map (fun b => b.amount) ∧
    (adminReleaseSlot st n).2.bookingHistory.map (fun b => b.amount)
      = st.bookingHistory.map (fun b => b.amount) := by
  refine ⟨?_, ?_, ?_⟩
  · simp only [adminStats, foldl_revenue]
    ring
  · unfold bookingsCancel
    split
    · rfl
    · dsimp only
      refine map_updateFirst_of_preserve _ _ (fun b : Booking => b.amount) ?_ _
      intro x
      rfl
  · unfold adminReleaseSlot
    split
    · rfl
    · dsimp only
      split
      · refine map_updateFirst_of_preserve _ _ (fun b : Booking => b.amount) ?_ _
        intro x
        rfl
      · rfl

/-! ## The slot set is fixed -/

theorem payment_slot_ids (dbConnected : Bool) (st : Store) (userId : String)
    (body : PaymentBody) (now : Int) (oid : String) :
    (payment dbConnected st userId body now oid).2.slots.map (fun s => s.id)
      = st.slots.map (fun s => s.id) := by
  unfold payment
  split
  · rfl
  · split
    · rfl
    · cases dbConnected
      · dsimp only
        refine map_updateFirst_of_preserve _ _ (fun s : Slot => s.id) ?_ _
        intro x
        rfl
      · dsimp only
        simp only [if_true]
        split
        · rfl
        · dsimp only
          refine map_updateFirst_of_preserve _ _ (fun s : Slot => s.id) ?_ _
          intro x
          rfl

theorem slotsBook_slot_ids (st : Store) (userId : String) (body : BookBody) (now : Int)
    (oid : String) :
    (slotsBook st userId body now oid).2.slots.map (fun s => s.id)
      = st.slots.map (fun s => s.id) := by
  unfold slotsBook
  split
  · rfl
  · split
    · rfl
    · split
      · rfl
      · dsimp only
        split
        · rfl
        · dsimp only
          refine map_updateFirst_of_preserve _ _ (fun s : Slot => s.id) ?_ _
          intro x
          rfl

theorem slotsCancel_slot_ids (st : Store) (slotId : Nat) :
    (slotsCancel st slotId).2.slots.map (fun s => s.id) = st.slots.map (fun s => s.id) := by
  unfold slotsCancel
  split
  · rfl
  · split
    · rfl
    · dsimp only
      refine map_updateFirst_of_preserve _ _ (fun s : Slot => s.id) ?_ _
      intro x
      rfl

theorem bookingsCancel_slot_ids (st : Store) (u : String) (n : Nat) :
    (bookingsCancel st u n).2.slots.map (fun s => s.id) = st.slots.map (fun s => s.id) := by
  unfold bookingsCancel
  split
  · rfl
  · dsimp only
    refine map_updateFirst_of_preserve _ _ (fun s : Slot => s.id) ?_ _
    intro x
    rfl

theorem adminReleaseSlot_slot_ids (st : Store) (n : Nat) :
    (adminReleaseSlot st n).2.slots.map (fun s => s.id) = st.slots.map (fun s => s.id) := by
  unfold adminReleaseSlot
  split
  · rfl
  · dsimp only
    refine map_updateFirst_of_preserve _ _ (fun s : Slot => s.id) ?_ _
    intro x
    rfl

theorem approveRefund_slots (st : Store) (refundId : String) (amount : Int)
    (userName : String) (now : Int) :
    (approveRefund st refundId amount userName now).2.slots = st.slots := by
  unfold approveRefund
  split
  · rfl
  · rfl

theorem cleanupExpired_slot_ids (st : Store) (now : Int) :
    (cleanupExpired st now).slots.map (fun s => s.id) = st.slots.map (fun s => s.id) := by
  simp only [cleanupExpired, List.map_map]
  apply List.map_congr_left
  intro s _
  simp only [Function.comp]
  split
  · rfl
  · rfl

theorem step_slot_ids (dbConnected : Bool) (st : Store) (op : Op) :
    (step dbConnected st op).slots.map (fun s => s.id) = st.slots.map (fun s => s.id) := by
  cases op with
  | book userId body now oid => exact payment_slot_ids dbConnected st userId body now oid
  | cancel userId slotNumber => exact bookingsCancel_slot_ids st userId slotNumber
  | release slotId => exact adminReleaseSlot_slot_ids st slotId
  | approve refundId amount userName now =>
    cases dbConnected
    · simp only [step, Bool.false_eq_true, if_false, approveRefund_slots]
    · rfl
  | tick now => exact cleanupExpired_slot_ids st now

theorem initialSlots_ids :
    initialSlots.map (fun s => s.id) = [1, 2, 3, 4, 5, 6, 7, 8, 9, 10] := by
  decide

theorem stepServer_slot_ids (dbConnected : Bool) (st : Store) (op : ServerOp)
    (h : st.slots.map (fun s => s.id) = [1, 2, 3, 4, 5, 6, 7, 8, 9, 10]) :
    (stepServer dbConnected st op).slots.map (fun s => s.id)
      = [1, 2, 3, 4, 5, 6, 7, 8, 9, 10] := by
  cases op with
  | lifecycle op =>
    simp only [stepServer]
    rw [step_slot_ids, h]
  | slotsBook userId body now oid =>
    cases dbConnected
    · exact h
    · simp only [stepServer, if_true]
      rw [slotsBook_slot_ids, h]
  | slotsCancel slotId =>
    cases dbConnected
    · exact h
    · simp only [stepServer, if_true]
      rw [slotsCancel_slot_ids, h]
  | reset =>
    cases dbConnected
    · exact h
    · exact initialSlots_ids

theorem runServer_slot_ids (dbConnected : Bool) (ops : List ServerOp) :
    ∀ st : Store, st.slots.map (fun s => s.id) = [1, 2, 3, 4, 5, 6, 7, 8, 9, 10] →
      (runServer dbConnected st ops).slots.map (fun s => s.id)
        = [1, 2, 3, 4, 5, 6, 7, 8, 9, 10] := by
  induction ops with
  | nil => intro st h; exact h
  | cons op ops ih =>
    intro st h
    exact ih (stepServer dbConnected st op) (stepServer_slot_ids dbConnected st op h)

/-- Claim C23: the slot set is fixed.  In every store the in-memory server
reaches from `memoryDB`, and in every store the database server reaches from
the collections a reset leaves, by any sequence of book (`/api/payment`,
`/api/slots/book`), cancel (`/api/bookings/cancel`, `/api/slots/cancel`),
admin release, admin reset, approve-refund and cleanup ticks, the slot ids in
store order are exactly 1, 2, ..., 10: no slot is added, removed or
renumbered. -/
theorem slot_set_is_fixed :
    (∀ ops : List ServerOp,
      (runServer false memoryDB ops).slots.map (fun s => s.id)
        = [1, 2, 3, 4, 5, 6, 7, 8, 9, 10]) ∧
    (∀ (users : List User) (ops : List ServerOp),
      (runServer true (adminReset { users := users, slots := [], bookingHistory := [] }).2
          ops).slots.map (fun s => s.id)
        = [1, 2, 3, 4, 5, 6, 7, 8, 9, 10]) := by
  constructor
  · intro ops
    exact runServer_slot_ids false ops memoryDB (by decide)
  · intro users ops
    exact runServer_slot_ids true ops _ initialSlots_ids

/-! ## Bookings are kept, and resolved bookings keep their status -/

theorem keepsBookings_refl (h : List Booking) : KeepsBookings h h :=
  fun _ b hb => ⟨b, hb, rfl, fun _ => rfl⟩

theorem keepsBookings_trans (h1 h2 h3 : List Booking) (h12 : KeepsBookings h1 h2)
    (h23 : KeepsBookings h2 h3) : KeepsBookings h1 h3 := by
  intro i b hb
  obtain ⟨b2, hb2, hid2, hst2⟩ := h12 i b hb
  obtain ⟨b3, hb3, hid3, hst3⟩ := h23 i b2 hb2
  refine ⟨b3, hb3, hid3.trans hid2, fun hna => ?_⟩
  have h2 : b2.status = b.status := hst2 hna
  have h3 : b3.status = b2.status := hst3 (by rw [h2]; exact hna)
  exact h3.trans h2

theorem keepsBookings_append (h extra : List Booking) : KeepsBookings h (h ++ extra) := by
  intro i b hb
  refine ⟨b, ?_, rfl, fun _ => rfl⟩
  have hi : i < h.length := by
    by_contra hge
    rw [List.getElem?_eq_none (Nat.le_of_not_lt hge)] at hb
    exact Option.noConfusion hb
  rw [List.getElem?_append_left hi]
  exact hb

theorem keepsBookings_updateFirst (p : Booking → Bool) (f : Booking → Booking)
    (hid : ∀ x, (f x)._id = x._id)
    (hst : ∀ x, p x = true → x.status ≠ Status.active → (f x).status = x.status)
    (h : List Booking) : KeepsBookings h (updateFirst p f h) := by
  induction h with
  | nil => intro i b hb; simp at hb
  | cons a as ih =>
    intro i b hb
    cases ha : p a
    · simp only [updateFirst, ha, Bool.false_eq_true, if_false]
      cases i with
      | zero =>
        simp only [List.getElem?_cons_zero] at hb ⊢
        exact ⟨a, rfl, by rw [Option.some.inj hb], fun _ => by rw [Option.some.inj hb]⟩
      | succ j =>
        simp only [List.getElem?_cons_succ] at hb ⊢
        exact ih j b hb
    · simp only [updateFirst, ha, if_true]
      cases i with
      | zero =>
        simp only [List.getElem?_cons_zero] at hb ⊢
        have hab : a = b := Option.some.inj hb
        subst hab
        exact ⟨f a, rfl, hid a, hst a ha⟩
      | succ j =>
        simp only [List.getElem?_cons_succ] at hb ⊢
        exact ⟨b, hb, rfl, fun _ => rfl⟩

theorem keepsBookings_payment (dbConnected : Bool) (st : Store) (userId : String)
    (body : PaymentBody) (now : Int) (oid : String) :
    KeepsBookings st.bookingHistory
      (payment dbConnected st userId body now oid).2.bookingHistory := by
  unfold payment
  split
  · exact keepsBookings_refl _
  · split
    · exact keepsBookings_refl _
    · cases dbConnected
      · exact keepsBookings_append _ _
      · dsimp only
        simp only [if_true]
        split
        · exact keepsBookings_refl _
        · exact keepsBookings_append _ _

theorem keepsBookings_bookingsCancel (st : Store) (u : String) (n : Nat) :
    KeepsBookings st.bookingHistory (bookingsCancel st u n).2.bookingHistory := by
  unfold bookingsCancel
  split
  · exact keepsBookings_refl _
  · dsimp only
    apply keepsBookings_updateFirst
    · intro x
      rfl
    · intro x hx hna
      simp only [isActiveBookingOf, Bool.and_eq_true, beq_iff_eq] at hx
      exact absurd hx.2 hna

theorem keepsBookings_adminReleaseSlot (st : Store) (n : Nat) :
    KeepsBookings st.bookingHistory (adminReleaseSlot st n).2.bookingHistory := by
  unfold adminReleaseSlot
  split
  · exact keepsBookings_refl _
  · dsimp only
    split
    · apply keepsBookings_updateFirst
      · intro x
        rfl
      · intro x hx hna
        simp only [Bool.and_eq_true, beq_iff_eq] at hx
        exact absurd hx.2 hna
    · exact keepsBookings_refl _

theorem keepsBookings_approveRefund (st : Store) (refundId : String) (amount : Int)
    (userName : String) (now : Int) :
    KeepsBookings st.bookingHistory
      (approveRefund st refundId amount userName now).2.bookingHistory := by
  unfold approveRefund
  split
  · exact keepsBookings_refl _
  · dsimp only
    apply keepsBookings_updateFirst
    · intro x
      rfl
    · intro x _ _
      rfl

theorem keepsBookings_step (dbConnected : Bool) (st : Store) (op : Op) :
    KeepsBookings st.bookingHistory (step dbConnected st op).bookingHistory := by
  cases op with
  | book userId body now oid => exact keepsBookings_payment dbConnected st userId body now oid
  | cancel userId slotNumber => exact keepsBookings_bookingsCancel st userId slotNumber
  | release slotId => exact keepsBookings_adminReleaseSlot st slotId
  | approve refundId amount userName now =>
    cases dbConnected
    · exact keepsBookings_approveRefund st refundId amount userName now
    · exact keepsBookings_refl _
  | tick now => exact keepsBookings_refl _

theorem keepsBookings_run (dbConnected : Bool) (ops : List Op) :
    ∀ st : Store, KeepsBookings st.bookingHistory (run dbConnected st ops).bookingHistory := by
  induction ops with
  | nil => intro st; exact keepsBookings_refl _
  | cons op ops ih =>
    intro st
    exact keepsBookings_trans _ _ _ (keepsBookings_step dbConnected st op)
      (ih (step dbConnected st op))

/-- Claim C24: no status transition reverses.  For every operation (book,
cancel, admin release, approve-refund, cleanup tick), and so for every
sequence of them, a booking whose status is not `active` is afterwards still
at its position with the same id and the same status; in particular it does
not return to `active`. -/
theorem resolved_status_never_changes (dbConnected : Bool) (st : Store) (i : Nat)
    (b : Booking) (hb : st.bookingHistory[i]? = some b) (hna : b.status ≠ Status.active) :
    (∀ op : Op, ∃ b' : Booking,
      (step dbConnected st op).bookingHistory[i]? = some b' ∧ b'._id = b._id ∧
      b'.status = b.status ∧ b'.status ≠ Status.active) ∧
    (∀ ops : List Op, ∃ b' : Booking,
      (run dbConnected st ops).bookingHistory[i]? = some b' ∧ b'._id = b._id ∧
      b'.status = b.status ∧ b'.status ≠ Status.active) := by
  constructor
  · intro op
    obtain ⟨b', hb', hid, hst⟩ := keepsBookings_step dbConnected st op i b hb
    exact ⟨b', hb', hid, hst hna, by rw [hst hna]; exact hna⟩
  · intro ops
    obtain ⟨b', hb', hid, hst⟩ := keepsBookings_run dbConnected ops st i b hb
    exact ⟨b', hb', hid, hst hna, by rw [hst hna]; exact hna⟩

/-- Witness for C24: the cancelled booking `b1` stays cancelled when `u1`
books slot 1 again. -/
theorem resolved_status_never_changes_witness :
    slot1Cancelled.bookingHistory[0]?
      = some (Booking.mk "b1" (some "u1") 1 "N/A" 1 50 "completed" 0 3600000
          Status.cancelled none none none) ∧
    ∃ b' : Booking,
      (step true slot1Cancelled (.book "u1" oneHourSlot1 5 "b2")).bookingHistory[0]? = some b' ∧
      b'._id = "b1" ∧ b'.status = Status.cancelled ∧ b'.status ≠ Status.active :=
  ⟨by decide,
    (resolved_status_never_changes true slot1Cancelled 0
      (Booking.mk "b1" (some "u1") 1 "N/A" 1 50 "completed" 0 3600000
        Status.cancelled none none none)
      (by decide) (by decide)).1 (.book "u1" oneHourSlot1 5 "b2")⟩

theorem keepsBookings_stepServer (dbConnected : Bool) (st : Store) (op : ServerOp)
    (hop : op = ServerOp.reset → dbConnected = false) :
    KeepsBookings st.bookingHistory (stepServer dbConnected st op).bookingHistory := by
  cases op with
  | lifecycle op => exact keepsBookings_step dbConnected st op
  | slotsBook userId body now oid =>
    cases dbConnected
    · exact keepsBookings_refl _
    · simp only [stepServer, if_true]
      unfold slotsBook
      split
      · exact keepsBookings_refl _
      · split
        · exact keepsBookings_refl _
        · split
          · exact keepsBookings_refl _
          · dsimp only
            split
            · exact keepsBookings_refl _
            · exact keepsBookings_append _ _
  | slotsCancel slotId =>
    cases dbConnected
    · exact keepsBookings_refl _
    · simp only [stepServer, if_true]
      unfold slotsCancel
      split
      · exact keepsBookings_refl _
      · split
        · exact keepsBookings_refl _
        · exact keepsBookings_refl _
  | reset =>
    rw [hop rfl]
    exact keepsBookings_refl _

/-- Claim C25 as stated fails: `POST /api/admin/reset` on the database server
deletes the booking history.  The store where `u1` holds slot 1 has the
booking `b1`; after the reset the booking history is empty. -/
theorem admin_reset_deletes_bookings :
    slot1HeldByU1.bookingHistory.map (fun b => b._id) = ["b1"] ∧
    (adminReset slot1HeldByU1).1 = Response.success "All data reset" none ∧
    (stepServer true slot1HeldByU1 ServerOp.reset).bookingHistory = [] := by
  refine ⟨by decide, by decide, by decide⟩

/-- Claim C25, amended: every operation other than the database reset keeps
the bookings.  For book (`/api/payment`, `/api/slots/book`), cancel
(`/api/bookings/cancel`, `/api/slots/cancel`), admin release, approve-refund
and the cleanup tick, and so for every sequence of lifecycle operations, a
booking present before is afterwards still at its position with the same id.
(On the in-memory server the reset route does not touch `memoryDB`.) -/
theorem bookings_kept_except_by_reset (dbConnected : Bool) (st : Store) (i : Nat)
    (b : Booking) (hb : st.bookingHistory[i]? = some b) :
    (∀ op : ServerOp, (op = ServerOp.reset → dbConnected = false) →
      ∃ b' : Booking,
        (stepServer dbConnected st op).bookingHistory[i]? = some b' ∧ b'._id = b._id) ∧
    (∀ ops : List Op, ∃ b' : Booking,
      (run dbConnected st ops).bookingHistory[i]? = some b' ∧ b'._id = b._id) := by
  constructor
  · intro op hop
    obtain ⟨b', hb', hid, -⟩ := keepsBookings_stepServer dbConnected st op hop i b hb
    exact ⟨b', hb', hid⟩
  · intro ops
    obtain ⟨b', hb', hid, -⟩ := keepsBookings_run dbConnected ops st i b hb
    exact ⟨b', hb', hid⟩

/-- Witness for the amended C25: booking `b1` is kept when `u1` cancels
slot 1. -/
theorem bookings_kept_except_by_reset_witness :
    slot1HeldByU1.bookingHistory[0]?
      = some (Booking.mk "b1" (some "u1") 1 "N/A" 1 50 "completed" 0 3600000
          Status.active none none none) ∧
    ∃ b' : Booking,
      (stepServer true slot1HeldByU1
        (ServerOp.lifecycle (.cancel "u1" 1))).bookingHistory[0]? = some b' ∧
      b'._id = "b1" :=
  ⟨by decide,
    (bookings_kept_except_by_reset true slot1HeldByU1 0
      (Booking.mk "b1" (some "u1") 1 "N/A" 1 50 "completed" 0 3600000
        Status.active none none none)
      (by decide)).1 (ServerOp.lifecycle (.cancel "u1" 1)) (fun h => by cases h)⟩

/-! ## Booking ids -/

/-- Claim C26 (unique booking ids, violated by the code): two successful
in-memory bookings, of slots 1 and 2, handled in the same millisecond get the
same id `booking_1700000000000`; the store is reachable, and an approve-refund
for that id reaches the first of the two only. -/
theorem same_millisecond_bookings_share_id :
    Reachable (run false memoryDB sameMillisecond) ∧
    (run false memoryDB sameMillisecond).bookingHistory.map (fun b => (b._id, b.slot))
      = [("booking_1700000000000", 1), ("booking_1700000000000", 2)] ∧
    (approveRefund (run false memoryDB sameMillisecond) "booking_1700000000000" 100 "Ravi"
        1700000000500).2.bookingHistory.map (fun b => (b.slot, b.refundStatus))
      = [(1, some "approved"), (2, none)] := by
  refine ⟨⟨_, rfl⟩, by decide, by decide⟩

/-! ## Two concurrent bookings of one slot -/

theorem slotsBookAlone_eq (st : Store) (userId : String) (body : BookBody) (now : Int)
    (oid : String) :
    slotsBookAlone st
        { userId := userId, body := body, now := now, oid := oid, phase := BookPhase.start }
      = ((slotsBook st userId body now oid).2,
          { userId := userId, body := body, now := now, oid := oid,
            phase := BookPhase.done (slotsBook st userId body now oid).1 }) := by
  by_cases hmiss : (body.slotId == 0 || body.hours == 0 || body.registrationNumber == "") = true
  · simp [slotsBookAlone, slotsBookStep, slotsBook, hmiss]
  · cases hfind : st.slots.find? (fun s => s.id == body.slotId) with
    | none => simp [slotsBookAlone, slotsBookStep, slotsBook, hmiss, hfind]
    | some slot =>
      cases hb : slot.booked
      · by_cases hdate : JsDate.ofValue (now + body.hours * 60 * 60 * 1000) = JsDate.invalid
        · simp [slotsBookAlone, slotsBookStep, slotsBook, hmiss, hfind, hb, hdate]
        · simp [slotsBookAlone, slotsBookStep, slotsBook, hmiss, hfind, hb, hdate]
      · simp [slotsBookAlone, slotsBookStep, slotsBook, hmiss, hfind, hb]

/-- Claim C27 (exactly one of two concurrent bookings succeeds, violated by
the code): two `POST /api/slots/book` requests for free slot 1 whose reads and
checks both come before either write both answer success; the booking history
gets two `active` bookings for slot 1 and the slot ends with the fields of the
request that wrote last.  Run alone, each request behaves as the handler
`slotsBook`. -/
theorem concurrent_bookings_both_succeed :
    (interleave freshDb raceFirst raceSecond raceSchedule).2.1.phase
      = BookPhase.done (Response.success "Slot booked successfully" (some "b1")) ∧
    (interleave freshDb raceFirst raceSecond raceSchedule).2.2.phase
      = BookPhase.done (Response.success "Slot booked successfully" (some "b2")) ∧
    (activeFor (interleave freshDb raceFirst raceSecond raceSchedule).1 1).map
        (fun b => (b._id, b.userId))
      = [("b1", some "u1"), ("b2", some "u2")] ∧
    slotOf (interleave freshDb raceFirst raceSecond raceSchedule).1 1
      = some (Slot.mk 1 true (some 7200000) (some "MH02CD5678") (some "u2")) ∧
    (∀ (st : Store) (userId : String) (body : BookBody) (now : Int) (oid : String),
      slotsBookAlone st
          { userId := userId, body := body, now := now, oid := oid, phase := BookPhase.start }
        = ((slotsBook st userId body now oid).2,
            { userId := userId, body := body, now := now, oid := oid,
              phase := BookPhase.done (slotsBook st userId body now oid).1 })) := by
  refine ⟨by decide, by decide, by decide, by decide, slotsBookAlone_eq⟩

/-! ## Admin routes and the caller's identity -/

/-- Claim C28 (admin-only routes reject callers without a token, violated by
the code): with no `Authorization` header, `POST /api/admin/reset` answers
success and empties the booking history, and `POST /api/admin/approve-refund`
answers success and marks the booking approved.  Both routes are registered
without the `verifyToken` middleware, which on a route that has it (here
`/api/bookings/cancel`) answers 401 and leaves the store unchanged. -/
theorem admin_routes_accept_missing_token :
    (postAdminReset none slot1HeldByU1).1 = Response.success "All data reset" none ∧
    slot1HeldByU1.bookingHistory.map (fun b => b._id) = ["b1"] ∧
    (postAdminReset none slot1HeldByU1).2.bookingHistory = [] ∧
    (postAdminApproveRefund none slot1Booked "booking_0" 50 "Asha" 9).1.isFailure = false ∧
    (postAdminApproveRefund none slot1Booked "booking_0" 50 "Asha" 9).2.bookingHistory.map
        (fun b => (b._id, b.refundStatus, b.refundAmount))
      = [("booking_0", some "approved", some 50)] ∧
    (∀ (jwtVerify : String → Option String) (st : Store) (n : Nat),
      postBookingsCancel jwtVerify none st n
        = (Response.failure 401 "No token provided", st)) := by
  refine ⟨by decide, by decide, by decide, by decide, by decide, fun _ _ _ => rfl⟩

/-- Claim C29 (a booking is attributed to the authenticated caller, violated
by the code): in the in-memory branch of `POST /api/payment` the stored user id
comes from the `email` of the body.  From `memoryDB` the booking and the slot
of caller `u1` get no user id; on a store with two users, two requests of `u1`
that differ only in `email` are attributed to `asha` and to `ravi`.  The
database branch stores `u1` in both runs. -/
theorem in_memory_booking_follows_body_email :
    (payment false memoryDB "u1" oneHourSlot1 0 "").2.bookingHistory.map (fun b => b.userId)
      = [none] ∧
    (slotOf (payment false memoryDB "u1" oneHourSlot1 0 "").2 1).map (fun s => s.userId)
      = some none ∧
    (payment false twoUsers "u1"
        { slotNumber := 1, duration := 1, amount := 50, email := "asha@example.org" } 0
        "").2.bookingHistory.map (fun b => b.userId) = [some "asha"] ∧
    (payment false twoUsers "u1"
        { slotNumber := 1, duration := 1, amount := 50, email := "ravi@example.org" } 0
        "").2.bookingHistory.map (fun b => b.userId) = [some "ravi"] ∧
    (slotOf (payment false twoUsers "u1"
        { slotNumber := 1, duration := 1, amount := 50, email := "ravi@example.org" } 0
        "").2 1).map (fun s => s.userId) = some (some "ravi") ∧
    (payment true twoUsers "u1"
        { slotNumber := 1, duration := 1, amount := 50, email := "asha@example.org" } 0
        "b1").2.bookingHistory.map (fun b => b.userId) = [some "u1"] ∧
    (payment true twoUsers "u1"
        { slotNumber := 1, duration := 1, amount := 50, email := "ravi@example.org" } 0
        "b1").2.bookingHistory.map (fun b => b.userId) = [some "u1"] := by
  refine ⟨by decide, by decide, by decide, by decide, by decide, by decide, by decide⟩

/-! ## Free slots on reachable stores -/

/-- Claim C30: in every store the in-memory server reaches from `memoryDB` by
book, cancel, admin release, approve-refund and cleanup ticks, every slot with
`booked = false` has `endTime`, `registrationNumber` and `userId` null. -/
theorem free_slot_has_no_occupant_data (st : Store) (hreach : Reachable st) :
    ∀ s ∈ st.slots, s.booked = false →
      s.endTime = none ∧ s.registrationNumber = none ∧ s.userId = none := by
  intro s hs hb
  have hclean : s.clear = s := freeSlotsClean_of_reachable st (Or.inl hreach) s hs hb
  rw [← hclean]
  exact ⟨rfl, rfl, rfl⟩

/-- Witness for C30: the store after slot 1 was booked and its hold lapsed. -/
theorem free_slot_has_no_occupant_data_witness :
    Reachable (run false memoryDB bookThenExpire) ∧
    ∀ s ∈ (run false memoryDB bookThenExpire).slots, s.booked = false →
      s.endTime = none ∧ s.registrationNumber = none ∧ s.userId = none :=
  ⟨⟨_, rfl⟩, free_slot_has_no_occupant_data (run false memoryDB bookThenExpire) ⟨_, rfl⟩⟩

end Parking
